import Mathlib

/-!
Verification of the context-assembly layer of `torchexpresso` (file
`torchexpresso/contexts.py`) against its natural-language specification.

The Python module is shallowly embedded: Python values (`None`, booleans,
integers, strings, lists, dicts) and the symbolic objects constructed by the
dynamic component loaders are one inductive type `Value`; Python dicts are
association lists with first-occurrence lookup and overwrite-or-append
assignment, exactly the observable behaviour of Python's insertion-ordered
dicts; fallible Python code (``KeyError``/``TypeError``/``raise``) is embedded
in `Except String`; in-place mutation of the experiment-config dict is
explicit state passing (mutating functions return the updated config).

External collaborators excluded by the specification (torch, comet_ml, the
pluggable model/dataset/env/callback/saver classes, checkpoint file I/O) are
represented symbolically: a constructed plugin instance is a `Value`
constructor recording exactly the construction call, and behaviour the layer
merely consumes (CUDA availability, constructor-signature inspection, the
`.name` attribute of plugin instances, checkpoint loading) is an `Ext`
oracle record.
-/

/-- A Python runtime value as observed by `contexts.py`: plain data
(`pyNone`, `bool`, `int`, `str`, `vlist`, `dict`) plus symbolic objects
recording the construction calls made by the loaders. -/
inductive Value where
  /-- Python `None`. -/
  | pyNone : Value
  /-- A Python `bool`. -/
  | bool (b : Bool) : Value
  /-- A Python `int`. -/
  | int (n : Int) : Value
  /-- A Python `str`. -/
  | str (s : String) : Value
  /-- A Python `list`. -/
  | vlist (xs : List Value) : Value
  /-- A Python `dict` with string keys, as an insertion-ordered assoc list. -/
  | dict (entries : List (String × Value)) : Value
  /-- A `torch.device(device_name)` object. -/
  | device (device_name : String) : Value
  /-- A comet_ml experiment object: `OfflineExperiment`/`Experiment` plus the
  `set_name` call; log transport is out of scope and not recorded. -/
  | comet (offline : Bool) (experiment_name : Value) : Value
  /-- A dynamically loaded callback instance: `clb_class(comet?, **kwargs?)`.
  `cometArg` is `some` exactly when the tracking client was injected. -/
  | callbackObj (python_package python_class : String)
      (cometArg : Option Value) (kwargs : Option Value) : Value
  /-- The default `AverageLossMetric(comet)` callback instance. -/
  | avgLossMetric (cometArg : Value) : Value
  /-- A `CallbackRegistry`/`SaverRegistry`: an ordered name-keyed mapping. -/
  | registry (entries : List (String × Value)) : Value
  /-- A dynamically loaded model: `model_class(task)` or
  `model_class(task, model_params)`, with the later `load_state_dict` calls
  (state dict, `strict` flag) and `.to(device)` placement recorded. -/
  | modelObj (python_package python_class : String) (model_params : Option Value)
      (task : Value) (loads : List (Value × Bool)) (dev : Option Value) : Value
  /-- A dynamically loaded dataset: `dataset_class(task, split_name, dataset_params, device)`. -/
  | datasetObj (python_package python_class : String) (dataset_params : Option Value)
      (task : Value) (split_or_env : Value) (dev : Value) : Value
  /-- A dynamically loaded environment: `env_class(task, env_params, split_name, device)`. -/
  | envObj (python_package python_class : String) (env_params : Option Value)
      (task : Value) (split_name : String) (dev : Value) : Value
  /-- A `torch.utils.data.dataloader.DataLoader(dataset, batch_size, shuffle,
  collate_fn=collate_variable_sequences)`. -/
  | dataLoader (dataset : Value) (batch_size : Value) (shuffle : Bool) : Value
  /-- A `torch.optim.Adam(model.parameters())` optimizer, recording the model
  whose parameters it was built over and any loaded optimizer state. -/
  | adam (model : Value) (loaded_state : Option Value) : Value
  /-- A dynamically loaded loss function: `loss_class(**kwargs?)`. -/
  | lossFnObj (python_package python_class : String) (kwargs : Option Value) : Value
  /-- The default `torch.nn.CrossEntropyLoss(ignore_index=...)`. -/
  | crossEntropyLoss (ignore_index : Int) : Value
  /-- A dynamically loaded step function: `step_class(**kwargs?)`. -/
  | stepFnObj (python_package python_class : String) (kwargs : Option Value) : Value
  /-- The default `steps.TrainingStep()`. -/
  | trainingStep : Value
  /-- A dynamically loaded saver: `svr_class(model_config, task_config, **kwargs?)`. -/
  | saverObj (python_package python_class : String)
      (model_config task_config : Value) (kwargs : Option Value) : Value
deriving Repr

/-- Lookup in a Python dict: the value at the first (unique) occurrence of
the key. -/
def dictGet? (d : List (String × Value)) (k : String) : Option Value :=
  match d with
  | [] => Option.none
  | (k', v) :: rest => if k' == k then some v else dictGet? rest k

/-- Key membership in a Python dict (`k in d`). -/
def dictHasKey (d : List (String × Value)) (k : String) : Bool :=
  match d with
  | [] => false
  | (k', _) :: rest => k' == k || dictHasKey rest k

/-- Python dict item assignment `d[k] = v`: overwrite the existing binding in
place, else append a new binding (insertion order). -/
def dictSet (d : List (String × Value)) (k : String) (v : Value) : List (String × Value) :=
  match d with
  | [] => [(k, v)]
  | (k', v') :: rest => if k' == k then (k', v) :: rest else (k', v') :: dictSet rest k v

/-- Python dict merge as in `{**a, **b}`: fold the bindings of `b` into `a`
by item assignment, so bindings of `b` overwrite those of `a`. -/
def dictUpdate (a : List (String × Value)) : List (String × Value) → List (String × Value)
  | [] => a
  | (k, v) :: rest => dictUpdate (dictSet a k v) rest

/-- Whether the keys of an assoc list are pairwise distinct (always true of a
list representing an actual Python dict). -/
def dictNoDupKeys : List (String × Value) → Bool
  | [] => true
  | (k, _) :: rest => !dictHasKey rest k && dictNoDupKeys rest

/-- Python truthiness of a value, as used by `if x:` and `and`. -/
def truthy : Value → Bool
  | .pyNone => false
  | .bool b => b
  | .int n => n != 0
  | .str s => s.length != 0
  | .vlist xs => !xs.isEmpty
  | .dict d => !d.isEmpty
  | _ => true

/-- Python `x is None`. -/
def isNone : Value → Bool
  | .pyNone => true
  | _ => false

/-- Python subscription `v[k]` with a string key: succeeds on dicts that
contain the key, raises ``KeyError``/``TypeError`` otherwise. -/
def getItem (v : Value) (k : String) : Except String Value :=
  match v with
  | .dict d =>
      match dictGet? d k with
      | some x => .ok x
      | none => .error ("KeyError: " ++ k)
  | _ => .error ("TypeError: object is not subscriptable: " ++ k)

/-- Python item assignment `v[k] = x` on a dict, returning the updated dict
(mutation is modelled by explicit state passing). -/
def setItem (v : Value) (k : String) (x : Value) : Except String Value :=
  match v with
  | .dict d => .ok (.dict (dictSet d k x))
  | _ => .error ("TypeError: object does not support item assignment: " ++ k)

/-- Python membership test `k in v` against a dict; other receivers used with
`in` by this module would raise ``TypeError``. -/
def pyIn (k : String) (v : Value) : Except String Bool :=
  match v with
  | .dict d => .ok (dictHasKey d k)
  | _ => .error ("TypeError: argument is not a container: " ++ k)

/-- A Python value in `str` position (module/class names fed to
`__import__`/`getattr`); anything else raises ``TypeError`` there. -/
def asStr : Value → Except String String
  | .str s => .ok s
  | _ => .error "TypeError: str expected"

/-- A Python value whose `.items()` is iterated (`apply_prefix` in
`log_config`); non-dicts raise ``AttributeError``. -/
def asDict : Value → Except String (List (String × Value))
  | .dict d => .ok d
  | _ => .error "AttributeError: items"

/-- Python `+` on the value kinds this module can meet (`ckpt["cp-epoch"] + 1`);
`bool` participates as an `int` as in Python. -/
def pyAdd : Value → Value → Except String Value
  | .int a, .int b => .ok (.int (a + b))
  | .bool a, .int b => .ok (.int ((if a then (1 : Int) else 0) + b))
  | .int a, .bool b => .ok (.int (a + (if b then (1 : Int) else 0)))
  | .bool a, .bool b => .ok (.int ((if a then (1 : Int) else 0) + (if b then (1 : Int) else 0)))
  | .str a, .str b => .ok (.str (a ++ b))
  | .vlist a, .vlist b => .ok (.vlist (a ++ b))
  | _, _ => .error "TypeError: unsupported operand types for +"

/-- The behaviour of the external collaborators that `contexts.py` consumes,
as oracles: `torch.cuda.is_available()`, the signature inspection that decides
tracking-client injection for a callback class, the `.name` attribute of
constructed callback/saver instances, and `load_checkpoint_from_path`. -/
structure PyExt where
  cudaAvailable : Bool
  injectsComet : String → String → Bool
  nameOf : Value → String
  loadCheckpoint : Value → Value

/-- `ContextLoader.load_device(force_cpu)`: CPU when forced, else the first
CUDA device exactly when one is available. -/
def load_device (force_cpu : Value) (ext : PyExt) : Value :=
  if truthy force_cpu then .device "cpu"
  else .device (if ext.cudaAvailable then "cuda:0" else "cpu")

/-- `ContextLoader.load_device_from_config`: read the optional `cpu_only`
experiment param (default `False`) and delegate to `load_device`. -/
def load_device_from_config (experiment_config : Value) (ext : PyExt) : Except String Value := do
  let params ← getItem experiment_config "params"
  let hasCpuOnly ← pyIn "cpu_only" params
  let cpu_only ← if hasCpuOnly then getItem params "cpu_only" else pure (Value.bool false)
  pure (load_device cpu_only ext)

/-- `ContextLoader.load_step_config_dynamically`: import and instantiate the
named step class, with or without keyword arguments. -/
def load_step_config_dynamically (python_package python_class : Value)
    (step_kwargs : Option Value) : Except String Value := do
  let pkg ← asStr python_package
  let cls ← asStr python_class
  pure (.stepFnObj pkg cls step_kwargs)

/-- `ContextLoader.load_step_fn`: dispatch on the presence of `kwargs` in the
step config. -/
def load_step_fn (step_config : Value) : Except String Value := do
  let hasK ← pyIn "kwargs" step_config
  if hasK then
    load_step_config_dynamically (← getItem step_config "package")
      (← getItem step_config "class") (some (← getItem step_config "kwargs"))
  else
    load_step_config_dynamically (← getItem step_config "package")
      (← getItem step_config "class") Option.none

/-- `ContextLoader.load_loss_fn_dynamically`. -/
def load_loss_fn_dynamically (python_package python_class : Value)
    (loss_kwargs : Option Value) : Except String Value := do
  let pkg ← asStr python_package
  let cls ← asStr python_class
  pure (.lossFnObj pkg cls loss_kwargs)

/-- `ContextLoader.load_loss_fn`. -/
def load_loss_fn (loss_config : Value) : Except String Value := do
  let hasK ← pyIn "kwargs" loss_config
  if hasK then
    load_loss_fn_dynamically (← getItem loss_config "package")
      (← getItem loss_config "class") (some (← getItem loss_config "kwargs"))
  else
    load_loss_fn_dynamically (← getItem loss_config "package")
      (← getItem loss_config "class") Option.none

/-- `ContextLoader.load_callback_dynamically`: import the callback class,
inspect its constructor signature (oracle `injectsComet`) and pass the
tracking client as first argument when a `comet`/`experiment` parameter is
declared. -/
def load_callback_dynamically (python_package python_class comet : Value)
    (clb_kwargs : Option Value) (ext : PyExt) : Except String Value := do
  let pkg ← asStr python_package
  let cls ← asStr python_class
  let inject_comet := ext.injectsComet pkg cls
  pure (.callbackObj pkg cls (if inject_comet then some comet else Option.none) clb_kwargs)

/-- `ContextLoader.load_callback`: dispatch on the presence of `kwargs`. -/
def load_callback (clb_config comet : Value) (ext : PyExt) : Except String Value := do
  let hasK ← pyIn "kwargs" clb_config
  if hasK then
    load_callback_dynamically (← getItem clb_config "package")
      (← getItem clb_config "class") comet (some (← getItem clb_config "kwargs")) ext
  else
    load_callback_dynamically (← getItem clb_config "package")
      (← getItem clb_config "class") comet Option.none ext

/-- The list comprehension `[callbacks[ref] for ref in clb_kwargs["metrics"]]`:
resolve each name string to the already-registered instance (Modelled from
the spec: `CallbackRegistry`, repository code outside `src/`, is an ordered
name-keyed mapping whose lookup fails on an unregistered name). -/
def resolve_metric_refs (callbacks : List (String × Value)) :
    List Value → Except String (List Value)
  | [] => .ok []
  | ref :: rest => do
      let c ←
        match ref with
        | .str nm =>
            match dictGet? callbacks nm with
            | some c => Except.ok c
            | none => Except.error ("KeyError: " ++ nm)
        | _ => Except.error "KeyError: unregistered reference"
      let cs ← resolve_metric_refs callbacks rest
      pure (c :: cs)

/-- The `for clb_config in clb_configs` loop of
`ContextLoader.load_callbacks_from_config`: before constructing a callback
whose kwargs contain a `metrics` list, replace each name string in that list
in place by the already-registered instance; register each constructed
callback under its `.name`.  Returns the registry entries and the processed
(mutated) callback-config list. -/
def load_callbacks_loop (ext : PyExt) (comet : Value) (clb_configs : List Value)
    (callbacks : List (String × Value)) (processed : List Value) :
    Except String (List (String × Value) × List Value) :=
  match clb_configs with
  | [] => .ok (callbacks, processed)
  | clb_config :: rest => do
      let hasK ← pyIn "kwargs" clb_config
      let clb_config' ←
        if hasK then do
          let clb_kwargs ← getItem clb_config "kwargs"
          let hasM ← pyIn "metrics" clb_kwargs
          if hasM then do
            let metrics ← getItem clb_kwargs "metrics"
            match metrics with
            | .vlist refs => do
                let ref_metrics ← resolve_metric_refs callbacks refs
                let clb_kwargs' ← setItem clb_kwargs "metrics" (.vlist ref_metrics)
                setItem clb_config "kwargs" clb_kwargs'
            | _ => .error "TypeError: metrics is not iterable"
          else pure clb_config
        else pure clb_config
      let clb ← load_callback clb_config' comet ext
      load_callbacks_loop ext comet rest (dictSet callbacks (ext.nameOf clb) clb)
        (processed ++ [clb_config'])

/-- `ContextLoader.load_callbacks_from_config`: construct the configured
callbacks in list order, or register a single default `AverageLossMetric(comet)`
when the config has no `callbacks` entry (Modelled from the spec:
`AverageLossMetric` is repository code outside `src/`; only its construction
with the tracking client and its `.name` attribute are relevant here).
Returns the registry and the (possibly mutated) experiment config. -/
def load_callbacks_from_config (exp_config comet : Value) (ext : PyExt) :
    Except String (Value × Value) := do
  let hasC ← pyIn "callbacks" exp_config
  if hasC then do
    let clb_configs ← getItem exp_config "callbacks"
    match clb_configs with
    | .vlist cfgs => do
        let (callbacks, processed) ← load_callbacks_loop ext comet cfgs [] []
        let exp_config' ← setItem exp_config "callbacks" (.vlist processed)
        pure (.registry callbacks, exp_config')
    | _ => .error "TypeError: callbacks is not iterable"
  else
    let loss_default := Value.avgLossMetric comet
    pure (.registry (dictSet [] (ext.nameOf loss_default) loss_default), exp_config)

/-- `ContextLoader.load_saver_dynamically`. -/
def load_saver_dynamically (python_package python_class model_config task_config : Value)
    (svr_kwargs : Option Value) : Except String Value := do
  let pkg ← asStr python_package
  let cls ← asStr python_class
  pure (.saverObj pkg cls model_config task_config svr_kwargs)

/-- `ContextLoader.load_saver`. -/
def load_saver (srv_config model_config task_config : Value) : Except String Value := do
  let hasK ← pyIn "kwargs" srv_config
  if hasK then
    load_saver_dynamically (← getItem srv_config "package") (← getItem srv_config "class")
      model_config task_config (some (← getItem srv_config "kwargs"))
  else
    load_saver_dynamically (← getItem srv_config "package") (← getItem srv_config "class")
      model_config task_config Option.none

/-- The `for srv_config in svr_configs` loop of
`ContextLoader.load_savers_from_config` (registry modelled from the spec as
for callbacks). -/
def load_savers_loop (ext : PyExt) (exp_config : Value) (svr_configs : List Value)
    (savers : List (String × Value)) : Except String (List (String × Value)) :=
  match svr_configs with
  | [] => .ok savers
  | srv_config :: rest => do
      let svr ← load_saver srv_config (← getItem exp_config "model") (← getItem exp_config "task")
      load_savers_loop ext exp_config rest (dictSet savers (ext.nameOf svr) svr)

/-- `ContextLoader.load_savers_from_config`: an empty registry when the
config has no `savers` entry. -/
def load_savers_from_config (exp_config : Value) (ext : PyExt) : Except String Value := do
  let hasS ← pyIn "savers" exp_config
  if hasS then do
    let svr_configs ← getItem exp_config "savers"
    match svr_configs with
    | .vlist cfgs => do
        let savers ← load_savers_loop ext exp_config cfgs []
        pure (Value.registry savers)
    | _ => .error "TypeError: savers is not iterable"
  else
    pure (Value.registry [])

/-- `ContextLoader.load_model_dynamically`: `model_class(task)` or
`model_class(task, model_params)`. -/
def load_model_dynamically (python_package python_class : Value)
    (model_params : Option Value) (task : Value) : Except String Value := do
  let pkg ← asStr python_package
  let cls ← asStr python_class
  pure (.modelObj pkg cls model_params task [] Option.none)

/-- `ContextLoader.load_model_from_config`. -/
def load_model_from_config (model_config task : Value) : Except String Value := do
  let hasP ← pyIn "params" model_config
  let model_params ← if hasP then some <$> getItem model_config "params" else pure Option.none
  load_model_dynamically (← getItem model_config "package") (← getItem model_config "class")
    model_params task

/-- `ContextLoader.load_env_dynamically`. -/
def load_env_dynamically (python_package python_class : Value) (env_params : Option Value)
    (task : Value) (split_name : String) (dev : Value) : Except String Value := do
  let pkg ← asStr python_package
  let cls ← asStr python_class
  pure (.envObj pkg cls env_params task split_name dev)

/-- `ContextLoader.load_env_from_config`. -/
def load_env_from_config (env_config task : Value) (split_name : String) (dev : Value) :
    Except String Value := do
  let hasP ← pyIn "params" env_config
  let env_params ← if hasP then some <$> getItem env_config "params" else pure Option.none
  load_env_dynamically (← getItem env_config "package") (← getItem env_config "class")
    env_params task split_name dev

/-- `ContextLoader.load_dataset_dynamically`. -/
def load_dataset_dynamically (python_package python_class : Value)
    (dataset_params : Option Value) (task : Value) (split_or_env : Value) (dev : Value) :
    Except String Value := do
  let pkg ← asStr python_package
  let cls ← asStr python_class
  pure (.datasetObj pkg cls dataset_params task split_or_env dev)

/-- `ContextLoader.load_dataset_from_config`. -/
def load_dataset_from_config (dataset_config task : Value) (split_or_env : Value) (dev : Value) :
    Except String Value := do
  let hasP ← pyIn "params" dataset_config
  let ds_params ← if hasP then some <$> getItem dataset_config "params" else pure Option.none
  load_dataset_dynamically (← getItem dataset_config "package") (← getItem dataset_config "class")
    ds_params task split_or_env dev

/-- The `for split_name in split_names` loop of
`ContextLoader.load_providers_from_config`: when an `env` entry is present,
write the split name into the dataset params (mutating the experiment
config) and reuse the shared environment as the dataset split; wrap each
dataset in a `DataLoader` whose `shuffle` is
`split_name == "train" and "env" not in experiment_config`. -/
def providers_loop (ext : PyExt) (dev : Value) (env? : Option Value)
    (split_names : List String) (experiment_config : Value)
    (providers : List (String × Value)) :
    Except String (List (String × Value) × Value) :=
  match split_names with
  | [] => .ok (providers, experiment_config)
  | split_name :: rest => do
      let hasEnv ← pyIn "env" experiment_config
      let (experiment_config, split_or_env) ←
        if hasEnv then
          match env? with
          | some env => do
              let ds ← getItem experiment_config "dataset"
              let ds_params ← getItem ds "params"
              let ds_params' ← setItem ds_params "split_name" (.str split_name)
              let ds' ← setItem ds "params" ds_params'
              let cfg' ← setItem experiment_config "dataset" ds'
              pure (cfg', env)
          | none => Except.error "UnboundLocalError: env"
        else pure (experiment_config, Value.str split_name)
      let dataset ← load_dataset_from_config (← getItem experiment_config "dataset")
        (← getItem experiment_config "task") split_or_env dev
      let params ← getItem experiment_config "params"
      let batch_size ← getItem params "batch_size"
      let hasEnv' ← pyIn "env" experiment_config
      let provider := Value.dataLoader dataset batch_size (split_name == "train" && !hasEnv')
      providers_loop ext dev env? rest experiment_config (dictSet providers split_name provider)

/-- `ContextLoader.load_providers_from_config`: build one provider per
requested split; a single shared environment instance is constructed up
front when the config has an `env` entry.  Returns the providers dict
entries and the (possibly mutated) experiment config. -/
def load_providers_from_config (experiment_config : Value) (split_names : List String)
    (dev : Value) (ext : PyExt) : Except String (List (String × Value) × Value) := do
  let hasEnv ← pyIn "env" experiment_config
  let env? ←
    if hasEnv then do
      let env ← load_env_from_config (← getItem experiment_config "env")
        (← getItem experiment_config "task") "env" dev
      pure (some env)
    else pure Option.none
  providers_loop ext dev env? split_names experiment_config []

/-- `ContextLoader.load_cometml_experiment`: an offline or online tracking
client depending on `comet_config["offline"]`; online mode reads the
required `api_key` (``KeyError`` when missing); the run name is set on the
client.  Offline-directory creation is filesystem I/O outside this layer's
contract and is not recorded. -/
def load_cometml_experiment (comet_config experiment_name : Value) : Except String Value := do
  let _workspace ←
    if (← pyIn "workspace" comet_config) then some <$> getItem comet_config "workspace"
    else pure Option.none
  let _project ←
    if (← pyIn "project_name" comet_config) then some <$> getItem comet_config "project_name"
    else pure Option.none
  let offline ← getItem comet_config "offline"
  if truthy offline then do
    let _dir ←
      if (← pyIn "offline_directory" comet_config) then
        some <$> getItem comet_config "offline_directory"
      else pure Option.none
    pure (Value.comet true experiment_name)
  else do
    let _api_key ← getItem comet_config "api_key"
    pure (Value.comet false experiment_name)

/-- `collate_variable_sequences`: zip a batch of `(input, label)` pairs into
two parallel lists without stacking. -/
def collate_variable_sequences (batch : List (Value × Value)) : Value × Value :=
  (.vlist (batch.map Prod.fst), .vlist (batch.map Prod.snd))

/-- `log_config`: forward prefixed parameter dicts to the tracking client.
The transport is out of scope; what remains observable in this layer is the
failure behaviour of iterating `.items()` of each present section. -/
def log_config (_comet : Value) (experiment_config : Value) : Except String Unit := do
  if (← pyIn "params" experiment_config) then do
    let _ ← asDict (← getItem experiment_config "params")
    pure ()
  if (← pyIn "model" experiment_config) then do
    let model ← getItem experiment_config "model"
    if (← pyIn "params" model) then do
      let _ ← asDict (← getItem model "params")
      pure ()
  if (← pyIn "dataset" experiment_config) then do
    let ds ← getItem experiment_config "dataset"
    if (← pyIn "params" ds) then do
      let _ ← asDict (← getItem ds "params")
      pure ()
  if (← pyIn "task" experiment_config) then do
    let _ ← asDict (← getItem experiment_config "task")
    pure ()

/-- `log_checkpoint`: iterate the checkpoint record and forward every
`cp-`-prefixed entry to the tracking client (transport out of scope). -/
def log_checkpoint (comet : Value) (checkpoint : Value) : Except String Unit :=
  if truthy comet then
    match checkpoint with
    | .dict _ => .ok ()
    | _ => .error "TypeError: checkpoint is not iterable"
  else .ok ()

/-- `is_dryrun(exp_params)`: the optional `dry_run` experiment param,
defaulting to `False`. -/
def is_dryrun (exp_params : Value) : Except String Value := do
  if (← pyIn "dry_run" exp_params) then getItem exp_params "dry_run"
  else pure (Value.bool false)

/-- `model.load_state_dict(state_dict, strict=...)` on a loaded model object:
record the load call. -/
def model_load_state_dict (model state_dict : Value) (strict : Bool) : Except String Value :=
  match model with
  | .modelObj pkg cls params task loads dev =>
      .ok (.modelObj pkg cls params task (loads ++ [(state_dict, strict)]) dev)
  | _ => .error "AttributeError: load_state_dict"

/-- `model.to(device)`: record the device placement. -/
def model_to (model dev : Value) : Except String Value :=
  match model with
  | .modelObj pkg cls params task loads _ =>
      .ok (.modelObj pkg cls params task loads (some dev))
  | _ => .error "AttributeError: to"

/-- `optimizer.load_state_dict(state)` on the Adam optimizer. -/
def optimizer_load_state_dict (optimizer state : Value) : Except String Value :=
  match optimizer with
  | .adam m _ => .ok (.adam m (some state))
  | _ => .error "AttributeError: load_state_dict"

/-- `ExperimentContext.__init__`: the holder dict, filled by item assignment
in source order. -/
def ExperimentContext.init (config comet dev providers callbacks : Value) :
    List (String × Value) :=
  dictSet (dictSet (dictSet (dictSet (dictSet [] "config" config) "comet" comet)
    "device" dev) "providers" providers) "callbacks" callbacks

/-- The five components an `ExperimentContext` is constructed from; the
`config` field is the experiment config after the in-place mutations done
during loading (in Python the very same dict object). -/
structure ExpParts where
  config : Value
  comet : Value
  device : Value
  providers : Value
  callbacks : Value

/-- The `if "tags" in experiment_config: comet.add_tags(...)` statement of
`ExperimentContext.from_config`; tag transport is out of scope, so only the
conditional read is observable. -/
def add_tags_step (_comet : Value) (experiment_config : Value) : Except String Unit := do
  if (← pyIn "tags" experiment_config) then do
    let _tags ← getItem experiment_config "tags"
    pure ()
  else pure ()

/-- `ExperimentContext.from_config` up to the final object construction:
tracking client, optional tags, parameter logging, callbacks, device,
providers — strictly in source order. -/
def ExperimentContext.from_config_parts (experiment_config : Value)
    (split_names : List String) (ext : PyExt) : Except String ExpParts := do
  let comet ← load_cometml_experiment (← getItem experiment_config "cometml")
    (← getItem experiment_config "name")
  add_tags_step comet experiment_config
  log_config comet experiment_config
  let (callbacks, experiment_config) ← load_callbacks_from_config experiment_config comet ext
  let dev ← load_device_from_config experiment_config ext
  let (providers, experiment_config) ←
    load_providers_from_config experiment_config split_names dev ext
  pure ⟨experiment_config, comet, dev, Value.dict providers, callbacks⟩

/-- `ExperimentContext.from_config`: the context's holder dict. -/
def ExperimentContext.from_config (experiment_config : Value) (split_names : List String)
    (ext : PyExt) : Except String (List (String × Value)) := do
  let p ← ExperimentContext.from_config_parts experiment_config split_names ext
  pure (ExperimentContext.init p.config p.comet p.device p.providers p.callbacks)

/-- `TrainingContext.__init__`: own fields assigned in source order, then
`self.holder = {**self.holder, **experiment_context.holder}`. -/
def TrainingContext.init (experiment_holder : List (String × Value))
    (model optimizer loss_fn step_fn epoch_start savers : Value) :
    List (String × Value) :=
  dictUpdate
    (dictSet (dictSet (dictSet (dictSet (dictSet (dictSet [] "model" model)
      "optimizer" optimizer) "loss_fn" loss_fn) "step_fn" step_fn)
      "epoch_start" epoch_start) "savers" savers)
    experiment_holder

/-- `TrainingContext.from_config`: experiment context, model, optional
resume (checkpoint logging, non-strict weight restore, epoch advance,
optimizer-state restore), device placement, optimizer, savers, loss
function, step function — strictly in source order. -/
def TrainingContext.from_config (experiment_config : Value) (split_names : List String)
    (ext : PyExt) : Except String (List (String × Value)) := do
  let p ← ExperimentContext.from_config_parts experiment_config split_names ext
  let cfg := p.config
  let epoch_start := Value.int 1
  let model ← load_model_from_config (← getItem cfg "model") (← getItem cfg "task")
  let params ← getItem cfg "params"
  let is_resume ←
    if (← pyIn "resume" params) then (truthy ·) <$> getItem params "resume"
    else pure false
  let (model, epoch_start, ckpt?) ←
    if is_resume then do
      let ckpt := ext.loadCheckpoint (← getItem params "resume_checkpoint_path")
      log_checkpoint p.comet ckpt
      let model ← model_load_state_dict model (← getItem ckpt "state_dict") false
      let epoch_start ← pyAdd (← getItem ckpt "cp-epoch") (.int 1)
      pure (model, epoch_start, some ckpt)
    else pure (model, epoch_start, Option.none)
  let model ← model_to model p.device
  let optimizer := Value.adam model Option.none
  let optimizer ←
    if is_resume then
      match ckpt? with
      | some ckpt => optimizer_load_state_dict optimizer (← getItem ckpt "optimizer")
      | none => Except.error "UnboundLocalError: ckpt"
    else pure optimizer
  let savers ← load_savers_from_config cfg ext
  let loss_fn ←
    if (← pyIn "loss_fn" params) then load_loss_fn (← getItem params "loss_fn")
    else pure (Value.crossEntropyLoss 0)
  let step_fn ←
    if (← pyIn "step_fn" params) then load_step_fn (← getItem params "step_fn")
    else pure Value.trainingStep
  pure (TrainingContext.init
    (ExperimentContext.init p.config p.comet p.device p.providers p.callbacks)
    model optimizer loss_fn step_fn epoch_start savers)

/-- `PredictionContext.__init__`: the own `model` field, then
`self.holder = {**self.holder, **experiment_context.holder}`. -/
def PredictionContext.init (experiment_holder : List (String × Value)) (model : Value) :
    List (String × Value) :=
  dictUpdate (dictSet [] "model" model) experiment_holder

/-- `PredictionContext.from_config`: fail up front on a `None` model path;
otherwise build the experiment context, load the checkpoint from the path,
reconstruct the model from the checkpoint's own `cp-model`/`cp-task` config,
restore its weights non-strictly and place it on the device. -/
def PredictionContext.from_config (experiment_config : Value) (split_names : List String)
    (model_path : Value) (ext : PyExt) : Except String (List (String × Value)) := do
  if isNone model_path then
    Except.error "Missing 'model_path' argument. Please provide a path to the model."
  else do
    let p ← ExperimentContext.from_config_parts experiment_config split_names ext
    let ckpt := ext.loadCheckpoint model_path
    log_checkpoint p.comet ckpt
    let model ← load_model_from_config (← getItem ckpt "cp-model") (← getItem ckpt "cp-task")
    let model ← model_load_state_dict model (← getItem ckpt "state_dict") false
    let model ← model_to model p.device
    pure (PredictionContext.init
      (ExperimentContext.init p.config p.comet p.device p.providers p.callbacks) model)

/-- `ProcessorContext.__init__`: an empty own holder merged with the
experiment context's holder. -/
def ProcessorContext.init (experiment_holder : List (String × Value)) :
    List (String × Value) :=
  dictUpdate [] experiment_holder

/-- `ProcessorContext.from_config`: the experiment context alone. -/
def ProcessorContext.from_config (experiment_config : Value) (split_names : List String)
    (ext : PyExt) : Except String (List (String × Value)) := do
  let p ← ExperimentContext.from_config_parts experiment_config split_names ext
  pure (ProcessorContext.init
    (ExperimentContext.init p.config p.comet p.device p.providers p.callbacks))

/-- A concrete external-behaviour record used to evaluate the embedding on
closed inputs: no CUDA, tracking-client injection for every callback class,
`.name` taken from the class name, and a canned checkpoint record with
`cp-epoch = 5`. -/
def extDemo : PyExt where
  cudaAvailable := false
  injectsComet := fun _ _ => true
  nameOf := fun v =>
    match v with
    | .callbackObj _ cls _ _ => cls
    | .avgLossMetric _ => "average_loss"
    | .saverObj _ cls _ _ _ => cls
    | _ => "obj"
  loadCheckpoint := fun _ => .dict [("state_dict", .dict []), ("optimizer", .dict []),
    ("cp-epoch", .int 5),
    ("cp-model", .dict [("package", .str "cpk"), ("class", .str "CkptModel")]),
    ("cp-task", .dict [("kind", .str "ckpt-task")])]

/-- A minimal valid experiment config: offline tracking, no callbacks, no
env, no resume. -/
def cfgDemo : Value := .dict [
  ("name", .str "exp1"),
  ("cometml", .dict [("offline", .bool true)]),
  ("task", .dict [("kind", .str "t")]),
  ("model", .dict [("package", .str "mpkg"), ("class", .str "MModel")]),
  ("dataset", .dict [("package", .str "dpkg"), ("class", .str "DSet"),
    ("params", .dict [])]),
  ("params", .dict [("batch_size", .int 4)])]

/-- `cfgDemo` with the resume flag set and a checkpoint path. -/
def cfgDemoResume : Value := .dict [
  ("name", .str "exp1"),
  ("cometml", .dict [("offline", .bool true)]),
  ("task", .dict [("kind", .str "t")]),
  ("model", .dict [("package", .str "mpkg"), ("class", .str "MModel")]),
  ("dataset", .dict [("package", .str "dpkg"), ("class", .str "DSet"),
    ("params", .dict [])]),
  ("params", .dict [("batch_size", .int 4), ("resume", .bool true),
    ("resume_checkpoint_path", .str "/ckpt")])]

/-- `cfgDemo` with an `env` entry. -/
def cfgDemoEnv : Value := .dict [
  ("name", .str "exp1"),
  ("cometml", .dict [("offline", .bool true)]),
  ("task", .dict [("kind", .str "t")]),
  ("model", .dict [("package", .str "mpkg"), ("class", .str "MModel")]),
  ("env", .dict [("package", .str "epkg"), ("class", .str "Env")]),
  ("dataset", .dict [("package", .str "dpkg"), ("class", .str "DSet"),
    ("params", .dict [])]),
  ("params", .dict [("batch_size", .int 4)])]

/-- `cfgDemo` with two callbacks, the second referencing the first by name
in its `metrics` kwargs. -/
def cfgDemoCallbacks : Value := .dict [
  ("name", .str "exp1"),
  ("cometml", .dict [("offline", .bool true)]),
  ("task", .dict [("kind", .str "t")]),
  ("model", .dict [("package", .str "mpkg"), ("class", .str "MModel")]),
  ("dataset", .dict [("package", .str "dpkg"), ("class", .str "DSet"),
    ("params", .dict [])]),
  ("callbacks", .vlist [
    .dict [("package", .str "cbp"), ("class", .str "MetricA")],
    .dict [("package", .str "cbp"), ("class", .str "Merger"),
      ("kwargs", .dict [("metrics", .vlist [.str "MetricA"])])]]),
  ("params", .dict [("batch_size", .int 4)])]

/-- A concrete first callback config (no kwargs). -/
def cfgA4 : Value := .dict [("package", .str "cbp"), ("class", .str "MetricA")]

/-- A concrete second callback config whose `metrics` kwargs name the first
callback. -/
def dB4 : List (String × Value) := [("package", .str "cbp"), ("class", .str "Merger"),
  ("kwargs", .dict [("metrics", .vlist [.str "MetricA"])])]

/-- The kwargs dict entries of `dB4`. -/
def kwB4 : List (String × Value) := [("metrics", .vlist [.str "MetricA"])]

/-- A config-dict body holding the two-element callback list `[A, B]`. -/
def dc4 : List (String × Value) := [("callbacks", .vlist [cfgA4, .dict dB4])]

/-- A concrete offline tracking client. -/
def comet4 : Value := .comet true (.str "exp1")

/-- The providers/config pair produced for `cfgDemoEnv` over splits
`["train", "dev"]`. -/
def provPairDemoEnv : List (String × Value) × Value :=
  (load_providers_from_config cfgDemoEnv ["train", "dev"] (Value.device "cpu")
    extDemo).toOption.getD ([], Value.pyNone)

/-- The holder of the Experiment Context built from `cfgDemo` over
`["train"]`. -/
def ecHolderDemo : List (String × Value) :=
  (ExperimentContext.from_config cfgDemo ["train"] extDemo).toOption.getD []

/-- The holder of the Training Context built from `cfgDemoResume`. -/
def trainHolderResume : List (String × Value) :=
  (TrainingContext.from_config cfgDemoResume ["train"] extDemo).toOption.getD []

/-- The holder of the Training Context built from `cfgDemo` (no resume). -/
def trainHolderNoResume : List (String × Value) :=
  (TrainingContext.from_config cfgDemo ["train"] extDemo).toOption.getD []

/-- The holder of the Prediction Context built from `cfgDemo` with a model
path. -/
def predHolderDemo : List (String × Value) :=
  (PredictionContext.from_config cfgDemo ["test"] (.str "/m.pt") extDemo).toOption.getD []

/-- `cfgDemo` with its `model` section replaced by a different one. -/
def cfgDemoAltModel : Value :=
  (setItem cfgDemo "model" (.dict [("package", .str "otherpkg"),
    ("class", .str "OtherModel")])).toOption.getD Value.pyNone

/-- The holder of the Prediction Context built from `cfgDemoAltModel`. -/
def predHolderAltDemo : List (String × Value) :=
  (PredictionContext.from_config cfgDemoAltModel ["test"] (.str "/m.pt")
    extDemo).toOption.getD []

theorem exc_bind_ok_iff {α β : Type} (e : Except String α) (f : α → Except String β) (c : β) :
    (e >>= f) = .ok c ↔ ∃ a, e = .ok a ∧ f a = .ok c := by
  cases e with
  | error s => simp [Bind.bind, Except.bind]
  | ok a => simp [Bind.bind, Except.bind]

theorem exc_map_ok_iff {α β : Type} (g : α → β) (e : Except String α) (c : β) :
    (g <$> e) = .ok c ↔ ∃ a, e = .ok a ∧ g a = c := by
  cases e with
  | error s => simp [Functor.map, Except.map]
  | ok a => simp [Functor.map, Except.map]

theorem exc_pure_ok {α : Type} (a : α) : (pure a : Except String α) = .ok a := rfl

theorem exc_error_bind {α β : Type} (e : String) (f : α → Except String β) :
    ((Except.error e : Except String α) >>= f) = Except.error e := rfl

theorem exc_ok_bind {α β : Type} (a : α) (f : α → Except String β) :
    ((Except.ok a : Except String α) >>= f) = f a := rfl

theorem exc_pure_bind {α β : Type} (a : α) (f : α → Except String β) :
    ((pure a : Except String α) >>= f) = f a := rfl

theorem dictGet?_dictSet (d : List (String × Value)) (k : String) (v : Value) (k' : String) :
    dictGet? (dictSet d k v) k' = if k' = k then some v else dictGet? d k' := by
  induction d with
  | nil =>
      by_cases h : k' = k
      · simp [dictSet, dictGet?, h]
      · have h' : ¬ k = k' := fun hh => h hh.symm
        simp [dictSet, dictGet?, h, h', beq_iff_eq]
  | cons e rest ih =>
      obtain ⟨k₁, v₁⟩ := e
      by_cases h1 : k₁ = k
      · subst h1
        by_cases h2 : k' = k₁
        · subst h2
          simp [dictSet, dictGet?]
        · have h2' : ¬ k₁ = k' := fun hh => h2 hh.symm
          simp [dictSet, dictGet?, h2, h2', beq_iff_eq]
      · by_cases h2 : k₁ = k'
        · subst h2
          have h1' : ¬ k₁ = k := h1
          simp [dictSet, dictGet?, h1', beq_iff_eq]
        · simp [dictSet, dictGet?, h1, h2, beq_iff_eq, ih]

theorem dictHasKey_eq_isSome (d : List (String × Value)) (k : String) :
    dictHasKey d k = (dictGet? d k).isSome := by
  induction d with
  | nil => simp [dictHasKey, dictGet?]
  | cons e rest ih =>
      obtain ⟨k₁, v₁⟩ := e
      by_cases h : k₁ = k <;> simp [dictHasKey, dictGet?, h, beq_iff_eq, ih]

theorem dictHasKey_dictSet (d : List (String × Value)) (k : String) (v : Value) (k' : String) :
    dictHasKey (dictSet d k v) k' = if k' = k then true else dictHasKey d k' := by
  by_cases h : k' = k <;>
    simp [dictHasKey_eq_isSome, dictGet?_dictSet, h]

theorem dictGet?_dictUpdate_not_mem (b a : List (String × Value)) (k : String)
    (h : dictHasKey b k = false) :
    dictGet? (dictUpdate a b) k = dictGet? a k := by
  induction b generalizing a with
  | nil => simp [dictUpdate]
  | cons e rest ih =>
      obtain ⟨k₁, v₁⟩ := e
      simp [dictHasKey, Bool.or_eq_false_iff, beq_iff_eq] at h
      rw [dictUpdate, ih _ h.2, dictGet?_dictSet]
      simp [Ne.symm h.1]

theorem dictGet?_dictUpdate_right (b a : List (String × Value)) (k : String) (v : Value)
    (hnd : dictNoDupKeys b = true) (hk : dictGet? b k = some v) :
    dictGet? (dictUpdate a b) k = some v := by
  induction b generalizing a with
  | nil => simp [dictGet?] at hk
  | cons e rest ih =>
      obtain ⟨k₁, v₁⟩ := e
      simp [dictNoDupKeys, Bool.and_eq_true] at hnd
      by_cases h1 : k₁ = k
      · subst h1
        simp [dictGet?] at hk
        subst hk
        rw [dictUpdate, dictGet?_dictUpdate_not_mem _ _ _ hnd.1, dictGet?_dictSet]
        simp
      · simp [dictGet?, beq_iff_eq, h1] at hk
        rw [dictUpdate]
        exact ih _ hnd.2 hk

theorem setItem_ok_inv (a : Value) (k : String) (v a' : Value)
    (h : setItem a k v = .ok a') :
    ∃ d, a = .dict d ∧ a' = .dict (dictSet d k v) := by
  cases a <;> simp [setItem] at h
  exact ⟨_, rfl, h.symm⟩

theorem getItem_setItem_self (a : Value) (k : String) (v a' : Value)
    (h : setItem a k v = .ok a') : getItem a' k = .ok v := by
  obtain ⟨d, rfl, rfl⟩ := setItem_ok_inv a k v a' h
  simp [getItem, dictGet?_dictSet]

theorem getItem_setItem_ne (a : Value) (k : String) (v a' : Value) (k' : String)
    (h : setItem a k v = .ok a') (hne : k' ≠ k) : getItem a' k' = getItem a k' := by
  obtain ⟨d, rfl, rfl⟩ := setItem_ok_inv a k v a' h
  simp [getItem, dictGet?_dictSet, hne]

theorem pyIn_setItem_self (a : Value) (k : String) (v a' : Value)
    (h : setItem a k v = .ok a') : pyIn k a' = .ok true := by
  obtain ⟨d, rfl, rfl⟩ := setItem_ok_inv a k v a' h
  simp [pyIn, dictHasKey_dictSet]

theorem pyIn_setItem_ne (a : Value) (k : String) (v a' : Value) (k' : String)
    (h : setItem a k v = .ok a') (hne : k' ≠ k) : pyIn k' a' = pyIn k' a := by
  obtain ⟨d, rfl, rfl⟩ := setItem_ok_inv a k v a' h
  simp [pyIn, dictHasKey_dictSet, hne]

/-- Two experiment configs that are both dicts and agree on every key other
than `k`; `PredictionContext` is supposed to ignore the config's `model`
section, which is stated as invariance under this relation at `k = "model"`. -/
def EqExcept (k : String) (a b : Value) : Prop :=
  ∃ da db, a = Value.dict da ∧ b = Value.dict db ∧
    ∀ k', k' ≠ k → dictGet? da k' = dictGet? db k'

theorem EqExcept.getItem_eq {k : String} {a b : Value} (h : EqExcept k a b)
    {k' : String} (hne : k' ≠ k) : getItem a k' = getItem b k' := by
  obtain ⟨da, db, rfl, rfl, hagree⟩ := h
  simp [getItem, hagree k' hne]

theorem EqExcept.pyIn_eq {k : String} {a b : Value} (h : EqExcept k a b)
    {k' : String} (hne : k' ≠ k) : pyIn k' a = pyIn k' b := by
  obtain ⟨da, db, rfl, rfl, hagree⟩ := h
  simp [pyIn, dictHasKey_eq_isSome, hagree k' hne]

theorem EqExcept.setItem_both {k : String} {a b : Value} (h : EqExcept k a b)
    {k₂ : String} {v a' b' : Value} (ha : setItem a k₂ v = .ok a')
    (hb : setItem b k₂ v = .ok b') : EqExcept k a' b' := by
  obtain ⟨da, db, rfl, rfl, hagree⟩ := h
  obtain ⟨da', hda, rfl⟩ := setItem_ok_inv _ _ _ _ ha
  obtain ⟨db', hdb, rfl⟩ := setItem_ok_inv _ _ _ _ hb
  obtain rfl : da = da' := by injection hda
  obtain rfl : db = db' := by injection hdb
  refine ⟨_, _, rfl, rfl, fun k' hne => ?_⟩
  rw [dictGet?_dictSet, dictGet?_dictSet]
  by_cases hk2 : k' = k₂ <;> simp [hk2, hagree k' hne]

theorem EqExcept.of_setItem {k : String} {a : Value} {v a' : Value}
    (h : setItem a k v = .ok a') : EqExcept k a a' := by
  obtain ⟨d, rfl, rfl⟩ := setItem_ok_inv _ _ _ _ h
  refine ⟨_, _, rfl, rfl, fun k' hne => ?_⟩
  rw [dictGet?_dictSet]
  simp [hne]

theorem EqExcept.trans {k : String} {a b c : Value} (h1 : EqExcept k a b)
    (h2 : EqExcept k b c) : EqExcept k a c := by
  obtain ⟨da, db, rfl, rfl, hab⟩ := h1
  obtain ⟨db', dc, hb, rfl, hbc⟩ := h2
  obtain rfl : db = db' := by injection hb
  exact ⟨da, dc, rfl, rfl, fun k' hne => (hab k' hne).trans (hbc k' hne)⟩

/-- The pre/post relation of a mutating loader step: the config is unchanged
or is a dict changed at most at key `k`. -/
def MutatesOnly (k : String) (a b : Value) : Prop :=
  a = b ∨ EqExcept k a b

theorem MutatesOnly.refl (k : String) (a : Value) : MutatesOnly k a a := Or.inl rfl

theorem MutatesOnly.comp {k : String} {a b c : Value} (h1 : MutatesOnly k a b)
    (h2 : MutatesOnly k b c) : MutatesOnly k a c := by
  cases h1 with
  | inl h1 => exact h1 ▸ h2
  | inr h1 =>
      cases h2 with
      | inl h2 => exact Or.inr (h2 ▸ h1)
      | inr h2 => exact Or.inr (h1.trans h2)

theorem MutatesOnly.setItem_step {k : String} {a v a' : Value}
    (h : setItem a k v = .ok a') : MutatesOnly k a a' :=
  Or.inr (EqExcept.of_setItem h)

theorem MutatesOnly.getItem_frame {k : String} {a b : Value} (h : MutatesOnly k a b)
    {k' : String} (hne : k' ≠ k) : getItem b k' = getItem a k' := by
  cases h with
  | inl h => rw [h]
  | inr h => exact (h.getItem_eq hne).symm

theorem MutatesOnly.pyIn_frame {k : String} {a b : Value} (h : MutatesOnly k a b)
    {k' : String} (hne : k' ≠ k) : pyIn k' b = pyIn k' a := by
  cases h with
  | inl h => rw [h]
  | inr h => exact (h.pyIn_eq hne).symm

theorem load_callbacks_mutates_only (cfg comet : Value) (ext : PyExt)
    (r cfg' : Value) (h : load_callbacks_from_config cfg comet ext = .ok (r, cfg')) :
    MutatesOnly "callbacks" cfg cfg' := by
  unfold load_callbacks_from_config at h
  rw [exc_bind_ok_iff] at h
  obtain ⟨b, _hb, h⟩ := h
  cases b with
  | false =>
      simp only [Bool.false_eq_true, if_false, exc_pure_ok, Except.ok.injEq,
        Prod.mk.injEq] at h
      exact h.2 ▸ MutatesOnly.refl _ _
  | true =>
      simp only [if_true] at h
      rw [exc_bind_ok_iff] at h
      obtain ⟨cfgs, _hcfgs, h⟩ := h
      cases cfgs
      case vlist cfgs =>
        rw [exc_bind_ok_iff] at h
        obtain ⟨⟨cbs, processed⟩, _hloop, h⟩ := h
        dsimp only at h
        rw [exc_bind_ok_iff] at h
        obtain ⟨cfg'', hset, h⟩ := h
        rw [exc_pure_ok, Except.ok.injEq, Prod.mk.injEq] at h
        exact h.2 ▸ MutatesOnly.setItem_step hset
      all_goals simp at h

theorem providers_loop_nil_iff (ext : PyExt) (dev : Value) (env? : Option Value)
    (cfg : Value) (acc prov : List (String × Value)) (cfg' : Value) :
    providers_loop ext dev env? [] cfg acc = .ok (prov, cfg') ↔ prov = acc ∧ cfg' = cfg := by
  simp only [providers_loop, Except.ok.injEq, Prod.mk.injEq]
  exact ⟨fun h => ⟨h.1.symm, h.2.symm⟩, fun h => ⟨h.1.symm, h.2.symm⟩⟩

theorem providers_loop_cons_inv (ext : PyExt) (dev : Value) (env? : Option Value)
    (s : String) (rest : List String) (cfg : Value) (acc prov : List (String × Value))
    (cfg' : Value)
    (h : providers_loop ext dev env? (s :: rest) cfg acc = .ok (prov, cfg')) :
    ∃ hasEnv cfg₁ soe dsCfg task dataset params bs hasEnv2,
      pyIn "env" cfg = .ok hasEnv ∧
      ((hasEnv = true ∧ ∃ env ds dsp dsp' ds', env? = some env ∧
          getItem cfg "dataset" = .ok ds ∧ getItem ds "params" = .ok dsp ∧
          setItem dsp "split_name" (.str s) = .ok dsp' ∧
          setItem ds "params" dsp' = .ok ds' ∧
          setItem cfg "dataset" ds' = .ok cfg₁ ∧ soe = env) ∨
       (hasEnv = false ∧ cfg₁ = cfg ∧ soe = Value.str s)) ∧
      getItem cfg₁ "dataset" = .ok dsCfg ∧
      getItem cfg₁ "task" = .ok task ∧
      load_dataset_from_config dsCfg task soe dev = .ok dataset ∧
      getItem cfg₁ "params" = .ok params ∧
      getItem params "batch_size" = .ok bs ∧
      pyIn "env" cfg₁ = .ok hasEnv2 ∧
      providers_loop ext dev env? rest cfg₁
        (dictSet acc s (Value.dataLoader dataset bs (s == "train" && !hasEnv2))) =
          .ok (prov, cfg') := by
  rw [providers_loop] at h
  rw [exc_bind_ok_iff] at h
  obtain ⟨hasEnv, hin, h⟩ := h
  cases hasEnv with
  | true =>
      simp only [if_true] at h
      cases env? with
      | none =>
          rw [exc_error_bind] at h
          exact absurd h (by simp)
      | some env =>
          rw [exc_bind_ok_iff] at h
          obtain ⟨ds, hds, h⟩ := h
          rw [exc_bind_ok_iff] at h
          obtain ⟨dsp, hdsp, h⟩ := h
          rw [exc_bind_ok_iff] at h
          obtain ⟨dsp', hdsp', h⟩ := h
          rw [exc_bind_ok_iff] at h
          obtain ⟨ds', hds', h⟩ := h
          rw [exc_bind_ok_iff] at h
          obtain ⟨cfg₁', hcfg₁, h⟩ := h
          rw [exc_pure_bind] at h
          dsimp only at h
          rw [exc_bind_ok_iff] at h
          obtain ⟨dsCfg, hdsCfg, h⟩ := h
          rw [exc_bind_ok_iff] at h
          obtain ⟨task, htask, h⟩ := h
          rw [exc_bind_ok_iff] at h
          obtain ⟨dataset, hdataset, h⟩ := h
          rw [exc_bind_ok_iff] at h
          obtain ⟨params, hparams, h⟩ := h
          rw [exc_bind_ok_iff] at h
          obtain ⟨bs, hbs, h⟩ := h
          rw [exc_bind_ok_iff] at h
          obtain ⟨hasEnv2, hin2, h⟩ := h
          exact ⟨true, cfg₁', env, dsCfg, task, dataset, params, bs, hasEnv2, hin,
            Or.inl ⟨rfl, env, ds, dsp, dsp', ds', rfl, hds, hdsp, hdsp', hds', hcfg₁, rfl⟩,
            hdsCfg, htask, hdataset, hparams, hbs, hin2, h⟩
  | false =>
      simp only [Bool.false_eq_true, if_false] at h
      rw [exc_pure_bind] at h
      dsimp only at h
      rw [exc_bind_ok_iff] at h
      obtain ⟨dsCfg, hdsCfg, h⟩ := h
      rw [exc_bind_ok_iff] at h
      obtain ⟨task, htask, h⟩ := h
      rw [exc_bind_ok_iff] at h
      obtain ⟨dataset, hdataset, h⟩ := h
      rw [exc_bind_ok_iff] at h
      obtain ⟨params, hparams, h⟩ := h
      rw [exc_bind_ok_iff] at h
      obtain ⟨bs, hbs, h⟩ := h
      rw [exc_bind_ok_iff] at h
      obtain ⟨hasEnv2, hin2, h⟩ := h
      exact ⟨false, cfg, Value.str s, dsCfg, task, dataset, params, bs, hasEnv2, hin,
        Or.inr ⟨rfl, rfl, rfl⟩, hdsCfg, htask, hdataset, hparams, hbs, hin2, h⟩

theorem ExperimentContext.from_config_parts_inv
    (cfg : Value) (splits : List String) (ext : PyExt) (p : ExpParts)
    (h : ExperimentContext.from_config_parts cfg splits ext = .ok p) :
    ∃ cm nm comet cbs cfg1 dev prov cfg2,
      getItem cfg "cometml" = .ok cm ∧
      getItem cfg "name" = .ok nm ∧
      load_cometml_experiment cm nm = .ok comet ∧
      log_config comet cfg = .ok () ∧
      load_callbacks_from_config cfg comet ext = .ok (cbs, cfg1) ∧
      load_device_from_config cfg1 ext = .ok dev ∧
      load_providers_from_config cfg1 splits dev ext = .ok (prov, cfg2) ∧
      p = ⟨cfg2, comet, dev, Value.dict prov, cbs⟩ := by
  unfold ExperimentContext.from_config_parts at h
  rw [exc_bind_ok_iff] at h
  obtain ⟨cm, hcm, h⟩ := h
  rw [exc_bind_ok_iff] at h
  obtain ⟨nm, hnm, h⟩ := h
  rw [exc_bind_ok_iff] at h
  obtain ⟨comet, hcomet, h⟩ := h
  rw [exc_bind_ok_iff] at h
  obtain ⟨u1, _hu1, h⟩ := h
  rw [exc_bind_ok_iff] at h
  obtain ⟨u2, hlog, h⟩ := h
  rw [exc_bind_ok_iff] at h
  obtain ⟨⟨cbs, cfg1⟩, hcb, h⟩ := h
  dsimp only at h
  rw [exc_bind_ok_iff] at h
  obtain ⟨dev, hdev, h⟩ := h
  rw [exc_bind_ok_iff] at h
  obtain ⟨⟨prov, cfg2⟩, hprov, h⟩ := h
  dsimp only at h
  rw [exc_pure_ok, Except.ok.injEq] at h
  obtain ⟨⟩ := u2
  exact ⟨cm, nm, comet, cbs, cfg1, dev, prov, cfg2, hcm, hnm, hcomet, hlog, hcb, hdev, hprov, h.symm⟩

/-- C1. The claim states that on a key collision the merged holder of a
specialized context keeps the specialized context's own value.  It does not:
`{**self.holder, **experiment_context.holder}` lets the embedded Experiment
Context's binding overwrite the specialized context's own binding, shown
here at the key `"model"` of a Training Context. -/
theorem C1_training_merge_counterexample :
    dictGet?
      (TrainingContext.init [("model", Value.str "from-experiment-context")]
        (Value.str "own-model") Value.pyNone Value.pyNone Value.pyNone Value.pyNone
        Value.pyNone)
      "model" = some (Value.str "from-experiment-context") ∧
    Value.str "from-experiment-context" ≠ Value.str "own-model" := by
  refine ⟨rfl, fun hcontra => ?_⟩
  simp at hcontra

/-- C1 (amended). For every key collision between a specialized context's own
fields and the embedded Experiment Context's fields, the merged lookup
structure built by TrainingContext, PredictionContext and ProcessorContext
keeps the embedded Experiment Context's value: the embedded fields take
higher precedence in the merge (in the actually constructed contexts the two
key sets are disjoint, so no collision arises in practice). -/
theorem C1_embedded_fields_take_precedence
    (ecHolder : List (String × Value)) (k : String) (v : Value)
    (hnd : dictNoDupKeys ecHolder = true) (hk : dictGet? ecHolder k = some v)
    (model optimizer loss_fn step_fn epoch_start savers pmodel : Value) :
    dictGet? (TrainingContext.init ecHolder model optimizer loss_fn step_fn
      epoch_start savers) k = some v ∧
    dictGet? (PredictionContext.init ecHolder pmodel) k = some v ∧
    dictGet? (ProcessorContext.init ecHolder) k = some v :=
  ⟨dictGet?_dictUpdate_right _ _ _ _ hnd hk,
   dictGet?_dictUpdate_right _ _ _ _ hnd hk,
   dictGet?_dictUpdate_right _ _ _ _ hnd hk⟩

theorem C1_embedded_fields_take_precedence_witness :
    dictNoDupKeys [("model", Value.str "E")] = true ∧
    dictGet? [("model", Value.str "E")] "model" = some (Value.str "E") ∧
    dictGet? (TrainingContext.init [("model", Value.str "E")] (Value.str "T")
      Value.pyNone Value.pyNone Value.pyNone Value.pyNone Value.pyNone) "model" =
        some (Value.str "E") ∧
    dictGet? (PredictionContext.init [("model", Value.str "E")] (Value.str "P"))
      "model" = some (Value.str "E") ∧
    dictGet? (ProcessorContext.init [("model", Value.str "E")]) "model" =
      some (Value.str "E") :=
  ⟨rfl, rfl,
   (C1_embedded_fields_take_precedence [("model", Value.str "E")] "model"
     (Value.str "E") rfl rfl (Value.str "T") Value.pyNone Value.pyNone Value.pyNone
     Value.pyNone Value.pyNone (Value.str "P")).1,
   (C1_embedded_fields_take_precedence [("model", Value.str "E")] "model"
     (Value.str "E") rfl rfl (Value.str "T") Value.pyNone Value.pyNone Value.pyNone
     Value.pyNone Value.pyNone (Value.str "P")).2.1,
   (C1_embedded_fields_take_precedence [("model", Value.str "E")] "model"
     (Value.str "E") rfl rfl (Value.str "T") Value.pyNone Value.pyNone Value.pyNone
     Value.pyNone Value.pyNone (Value.str "P")).2.2⟩

/-- C7. With `cpu_only` set to `True` in the experiment params, device
loading returns the CPU device regardless of CUDA availability; with
`cpu_only` absent or `False`, the CUDA device is chosen exactly when CUDA is
available. -/
theorem C7_cpu_only_forces_cpu_device (experiment_config : Value)
    (params : List (String × Value)) (ext : PyExt)
    (hp : getItem experiment_config "params" = .ok (.dict params)) :
    (dictGet? params "cpu_only" = some (Value.bool true) →
      load_device_from_config experiment_config ext = .ok (Value.device "cpu")) ∧
    ((dictHasKey params "cpu_only" = false ∨
        dictGet? params "cpu_only" = some (Value.bool false)) →
      load_device_from_config experiment_config ext =
        .ok (Value.device (if ext.cudaAvailable then "cuda:0" else "cpu"))) := by
  constructor
  · intro hcpu
    have hkey : dictHasKey params "cpu_only" = true := by
      rw [dictHasKey_eq_isSome, hcpu]
      rfl
    have hpy : pyIn "cpu_only" (Value.dict params) = .ok true := by
      simp [pyIn, hkey]
    have hget : getItem (Value.dict params) "cpu_only" = .ok (Value.bool true) := by
      simp [getItem, hcpu]
    unfold load_device_from_config
    rw [hp, exc_ok_bind, hpy, exc_ok_bind]
    simp only [if_true]
    rw [hget]
    rfl
  · intro hcpu
    cases hcpu with
    | inl habsent =>
        have hpy : pyIn "cpu_only" (Value.dict params) = .ok false := by
          simp [pyIn, habsent]
        unfold load_device_from_config
        rw [hp, exc_ok_bind, hpy, exc_ok_bind]
        rfl
    | inr hfalse =>
        have hkey : dictHasKey params "cpu_only" = true := by
          rw [dictHasKey_eq_isSome, hfalse]
          rfl
        have hpy : pyIn "cpu_only" (Value.dict params) = .ok true := by
          simp [pyIn, hkey]
        have hget : getItem (Value.dict params) "cpu_only" = .ok (Value.bool false) := by
          simp [getItem, hfalse]
        unfold load_device_from_config
        rw [hp, exc_ok_bind, hpy, exc_ok_bind]
        simp only [if_true]
        rw [hget]
        rfl

theorem C7_cpu_only_forces_cpu_device_witness :
    getItem (Value.dict [("params", Value.dict [("cpu_only", Value.bool true)])])
      "params" = .ok (.dict [("cpu_only", Value.bool true)]) ∧
    dictGet? [("cpu_only", Value.bool true)] "cpu_only" = some (Value.bool true) ∧
    load_device_from_config
      (Value.dict [("params", Value.dict [("cpu_only", Value.bool true)])])
      ⟨true, fun _ _ => false, fun _ => "", fun _ => Value.pyNone⟩ =
        .ok (Value.device "cpu") :=
  ⟨rfl, rfl,
   (C7_cpu_only_forces_cpu_device
     (Value.dict [("params", Value.dict [("cpu_only", Value.bool true)])])
     [("cpu_only", Value.bool true)]
     ⟨true, fun _ _ => false, fun _ => "", fun _ => Value.pyNone⟩ rfl).1 rfl⟩

/-- C8. Calling `PredictionContext.from_config` with a model path of `None`
fails immediately with the missing-model-path error, for every experiment
config, split list and external behaviour: no context component is
constructed and the error propagates to the caller. -/
theorem C8_missing_model_path_fatal (experiment_config : Value)
    (split_names : List String) (ext : PyExt) :
    PredictionContext.from_config experiment_config split_names Value.pyNone ext =
      .error "Missing 'model_path' argument. Please provide a path to the model." :=
  rfl

/-- C10. When the experiment config contains no `callbacks` entry, the
callback registry is not empty: it holds exactly one default
`AverageLossMetric(comet)` instance, registered under that callback's name,
and the config is left unchanged. -/
theorem C10_default_average_loss_callback (exp_config comet : Value) (ext : PyExt)
    (hno : pyIn "callbacks" exp_config = .ok false) :
    load_callbacks_from_config exp_config comet ext =
      .ok (Value.registry
        [(ext.nameOf (Value.avgLossMetric comet), Value.avgLossMetric comet)],
        exp_config) := by
  simp [load_callbacks_from_config, hno, exc_ok_bind, exc_pure_ok, dictSet]

theorem C10_default_average_loss_callback_witness :
    pyIn "callbacks" (Value.dict [("params", Value.dict [])]) = .ok false ∧
    load_callbacks_from_config (Value.dict [("params", Value.dict [])])
      (Value.comet true (Value.str "e"))
      ⟨false, fun _ _ => false, fun _ => "average_loss", fun _ => Value.pyNone⟩ =
      .ok (Value.registry
        [("average_loss", Value.avgLossMetric (Value.comet true (Value.str "e")))],
        Value.dict [("params", Value.dict [])]) :=
  ⟨rfl,
   C10_default_average_loss_callback (Value.dict [("params", Value.dict [])])
     (Value.comet true (Value.str "e"))
     ⟨false, fun _ _ => false, fun _ => "average_loss", fun _ => Value.pyNone⟩ rfl⟩

theorem dictSet_keys (d : List (String × Value)) (k : String) (v : Value)
    (h : dictHasKey d k = false) :
    (dictSet d k v).map Prod.fst = d.map Prod.fst ++ [k] := by
  induction d with
  | nil => simp [dictSet]
  | cons e rest ih =>
      obtain ⟨k₁, v₁⟩ := e
      rw [dictHasKey, Bool.or_eq_false_iff] at h
      simp [dictSet, h.1, ih h.2]

theorem providers_loop_keys (ext : PyExt) (dev : Value) (env? : Option Value) :
    ∀ (splits : List String) (cfg : Value) (acc prov : List (String × Value)) (cfg' : Value),
      splits.Nodup → (∀ s ∈ splits, dictHasKey acc s = false) →
      providers_loop ext dev env? splits cfg acc = .ok (prov, cfg') →
      prov.map Prod.fst = acc.map Prod.fst ++ splits := by
  intro splits
  induction splits with
  | nil =>
      intro cfg acc prov cfg' _ _ h
      rw [providers_loop_nil_iff] at h
      simp [h.1]
  | cons s rest ih =>
      intro cfg acc prov cfg' hnd hdisj h
      obtain ⟨hasEnv, cfg₁, soe, dsCfg, task, dataset, params, bs, hasEnv2, hin, hbranch,
        hds, htask, hdl, hps, hbs, hin2, hrec⟩ :=
        providers_loop_cons_inv _ _ _ _ _ _ _ _ _ h
      obtain ⟨hs_rest, hnd'⟩ := List.nodup_cons.mp hnd
      have hsk : dictHasKey acc s = false := hdisj s (by simp)
      have hdisj' : ∀ t ∈ rest,
          dictHasKey (dictSet acc s
            (Value.dataLoader dataset bs (s == "train" && !hasEnv2))) t = false := by
        intro t ht
        rw [dictHasKey_dictSet]
        have hts : ¬ t = s := fun hh => hs_rest (hh ▸ ht)
        simp [hts]
        exact hdisj t (List.mem_cons_of_mem _ ht)
      have hkeys := dictSet_keys acc s
        (Value.dataLoader dataset bs (s == "train" && !hasEnv2)) hsk
      rw [ih cfg₁ _ prov cfg' hnd' hdisj' hrec, hkeys]
      simp

theorem load_providers_from_config_inv (cfg : Value) (splits : List String)
    (dev : Value) (ext : PyExt) (prov : List (String × Value)) (cfg' : Value)
    (h : load_providers_from_config cfg splits dev ext = .ok (prov, cfg')) :
    ∃ hasEnv env?,
      pyIn "env" cfg = .ok hasEnv ∧
      (hasEnv = true → ∃ envCfg task env, getItem cfg "env" = .ok envCfg ∧
        getItem cfg "task" = .ok task ∧
        load_env_from_config envCfg task "env" dev = .ok env ∧ env? = some env) ∧
      (hasEnv = false → env? = Option.none) ∧
      providers_loop ext dev env? splits cfg [] = .ok (prov, cfg') := by
  unfold load_providers_from_config at h
  rw [exc_bind_ok_iff] at h
  obtain ⟨hasEnv, hin, h⟩ := h
  cases hasEnv with
  | true =>
      simp only [if_true] at h
      rw [exc_bind_ok_iff] at h
      obtain ⟨envCfg, henvCfg, h⟩ := h
      rw [exc_bind_ok_iff] at h
      obtain ⟨task, htask, h⟩ := h
      rw [exc_bind_ok_iff] at h
      obtain ⟨env, henv, h⟩ := h
      rw [exc_pure_bind] at h
      exact ⟨true, some env, hin,
        fun _ => ⟨envCfg, task, env, henvCfg, htask, henv, rfl⟩,
        fun hcontra => by simp at hcontra, h⟩
  | false =>
      simp only [Bool.false_eq_true, if_false] at h
      rw [exc_pure_bind] at h
      exact ⟨false, Option.none, hin,
        fun hcontra => by simp at hcontra, fun _ => rfl, h⟩

/-- C3. For every valid experiment config and duplicate-free list of
requested split names, a successfully constructed Experiment Context's
holder exposes exactly the keys `config`, `comet`, `device`, `providers`
and `callbacks`, and the providers dict has exactly one entry per requested
split name, in request order. -/
theorem C3_experiment_context_holder_keys (experiment_config : Value)
    (split_names : List String) (ext : PyExt) (H : List (String × Value))
    (hnd : split_names.Nodup)
    (h : ExperimentContext.from_config experiment_config split_names ext = .ok H) :
    H.map Prod.fst = ["config", "comet", "device", "providers", "callbacks"] ∧
    ∃ pd, dictGet? H "providers" = some (Value.dict pd) ∧
      pd.map Prod.fst = split_names := by
  unfold ExperimentContext.from_config at h
  rw [exc_bind_ok_iff] at h
  obtain ⟨p, hp, h⟩ := h
  rw [exc_pure_ok, Except.ok.injEq] at h
  subst h
  obtain ⟨cm, nm, comet, cbs, cfg1, dev, prov, cfg2, _, _, _, _, hcb, hdev, hprov, hpeq⟩ :=
    ExperimentContext.from_config_parts_inv _ _ _ _ hp
  subst hpeq
  refine ⟨rfl, prov, rfl, ?_⟩
  obtain ⟨hasEnv, env?, hin, _, _, hloop⟩ :=
    load_providers_from_config_inv _ _ _ _ _ _ hprov
  have := providers_loop_keys ext dev env? split_names cfg1 [] prov cfg2 hnd
    (fun s _ => rfl) hloop
  simpa using this

theorem C3_experiment_context_holder_keys_witness :
    (["train", "dev"] : List String).Nodup ∧
    ExperimentContext.from_config cfgDemo ["train", "dev"] extDemo =
      .ok ((ExperimentContext.from_config cfgDemo ["train", "dev"] extDemo).toOption.getD []) ∧
    ((ExperimentContext.from_config cfgDemo ["train", "dev"] extDemo).toOption.getD []).map
      Prod.fst = ["config", "comet", "device", "providers", "callbacks"] ∧
    (∃ pd, dictGet?
        ((ExperimentContext.from_config cfgDemo ["train", "dev"] extDemo).toOption.getD [])
        "providers" = some (Value.dict pd) ∧ pd.map Prod.fst = ["train", "dev"]) :=
  ⟨by decide, rfl,
   (C3_experiment_context_holder_keys cfgDemo ["train", "dev"] extDemo _
     (by decide) rfl).1,
   (C3_experiment_context_holder_keys cfgDemo ["train", "dev"] extDemo _
     (by decide) rfl).2⟩

theorem providers_loop_shuffle (ext : PyExt) (dev : Value) (env? : Option Value) :
    ∀ (splits : List String) (cfg : Value) (acc prov : List (String × Value))
      (cfg' : Value) (e : Bool),
      pyIn "env" cfg = .ok e →
      (∀ s dl, dictGet? acc s = some dl →
        ∃ ds bs, dl = Value.dataLoader ds bs (s == "train" && !e)) →
      providers_loop ext dev env? splits cfg acc = .ok (prov, cfg') →
      ∀ s dl, dictGet? prov s = some dl →
        ∃ ds bs, dl = Value.dataLoader ds bs (s == "train" && !e) := by
  intro splits
  induction splits with
  | nil =>
      intro cfg acc prov cfg' e he hacc h
      rw [providers_loop_nil_iff] at h
      exact h.1 ▸ hacc
  | cons s rest ih =>
      intro cfg acc prov cfg' e he hacc h
      obtain ⟨hasEnv, cfg₁, soe, dsCfg, task, dataset, params, bs, hasEnv2, hin, hbranch,
        hds, htask, hdl, hps, hbs, hin2, hrec⟩ :=
        providers_loop_cons_inv _ _ _ _ _ _ _ _ _ h
      obtain rfl : e = hasEnv := by
        rw [he] at hin
        exact Except.ok.inj hin
      have he₁ : pyIn "env" cfg₁ = .ok e := by
        cases hbranch with
        | inl hb =>
            obtain ⟨_, env, ds, dsp, dsp', ds', _, _, _, _, _, hset, _⟩ := hb
            rw [pyIn_setItem_ne cfg "dataset" ds' cfg₁ "env" hset (by decide)]
            exact he
        | inr hb => exact hb.2.1 ▸ he
      obtain rfl : e = hasEnv2 := by
        rw [he₁] at hin2
        exact Except.ok.inj hin2
      refine ih cfg₁ _ prov cfg' e he₁ ?_ hrec
      intro t dl hget
      rw [dictGet?_dictSet] at hget
      by_cases hts : t = s
      · subst hts
        simp at hget
        exact ⟨dataset, bs, hget.symm⟩
      · rw [if_neg hts] at hget
        exact hacc t dl hget

/-- C6. For every experiment config and requested split list, every provider
built by the provider loader has shuffling enabled if and only if its split
name is exactly `"train"` and the config contains no `env` entry: each entry
of the returned providers dict is a `DataLoader` whose shuffle flag is
`split == "train" && !(env present)`. -/
theorem C6_shuffle_only_train_without_env (experiment_config : Value)
    (split_names : List String) (dev : Value) (ext : PyExt)
    (prov : List (String × Value)) (cfg' : Value) (e : Bool)
    (h : load_providers_from_config experiment_config split_names dev ext =
      .ok (prov, cfg'))
    (he : pyIn "env" experiment_config = .ok e) :
    ∀ s dl, dictGet? prov s = some dl →
      ∃ ds bs, dl = Value.dataLoader ds bs (s == "train" && !e) := by
  obtain ⟨hasEnv, env?, hin, _, _, hloop⟩ :=
    load_providers_from_config_inv _ _ _ _ _ _ h
  exact providers_loop_shuffle ext dev env? split_names experiment_config [] prov cfg' e
    he (fun s dl hget => by simp [dictGet?] at hget) hloop

theorem C6_shuffle_only_train_without_env_witness :
    load_providers_from_config cfgDemo ["train", "dev"] (Value.device "cpu") extDemo =
      .ok ((load_providers_from_config cfgDemo ["train", "dev"] (Value.device "cpu")
        extDemo).toOption.getD ([], Value.pyNone)) ∧
    pyIn "env" cfgDemo = .ok false ∧
    dictGet? ((load_providers_from_config cfgDemo ["train", "dev"] (Value.device "cpu")
        extDemo).toOption.getD ([], Value.pyNone)).1 "train" =
      some (Value.dataLoader
        (Value.datasetObj "dpkg" "DSet" (some (Value.dict []))
          (Value.dict [("kind", Value.str "t")]) (Value.str "train") (Value.device "cpu"))
        (Value.int 4) true) ∧
    (∃ ds bs, Value.dataLoader
        (Value.datasetObj "dpkg" "DSet" (some (Value.dict []))
          (Value.dict [("kind", Value.str "t")]) (Value.str "train") (Value.device "cpu"))
        (Value.int 4) true = Value.dataLoader ds bs ("train" == "train" && !false)) :=
  ⟨rfl, rfl, rfl,
   C6_shuffle_only_train_without_env cfgDemo ["train", "dev"] (Value.device "cpu")
     extDemo _ _ false rfl rfl "train" _ rfl⟩

theorem providers_loop_split_name (ext : PyExt) (dev : Value) (env? : Option Value) :
    ∀ (splits₀ : List String) (sLast : String) (cfg : Value)
      (acc prov : List (String × Value)) (cfg' : Value),
      pyIn "env" cfg = .ok true →
      providers_loop ext dev env? (splits₀ ++ [sLast]) cfg acc = .ok (prov, cfg') →
      ∃ ds dsp, getItem cfg' "dataset" = .ok ds ∧ getItem ds "params" = .ok dsp ∧
        getItem dsp "split_name" = .ok (Value.str sLast) := by
  intro splits₀
  induction splits₀ with
  | nil =>
      intro sLast cfg acc prov cfg' he h
      rw [List.nil_append] at h
      obtain ⟨hasEnv, cfg₁, soe, dsCfg, task, dataset, params, bs, hasEnv2, hin, hbranch,
        hds, htask, hdl, hps, hbs, hin2, hrec⟩ :=
        providers_loop_cons_inv _ _ _ _ _ _ _ _ _ h
      obtain rfl : true = hasEnv := by
        rw [he] at hin
        exact Except.ok.inj hin
      cases hbranch with
      | inr hb => exact absurd hb.1 (by simp)
      | inl hb =>
          obtain ⟨_, env, ds, dsp, dsp', ds', _, hgds, hgdsp, hsetsn, hsetp, hsetcfg, _⟩ := hb
          rw [providers_loop_nil_iff] at hrec
          obtain ⟨_, rfl⟩ := hrec
          exact ⟨ds', dsp', getItem_setItem_self _ _ _ _ hsetcfg,
            getItem_setItem_self _ _ _ _ hsetp, getItem_setItem_self _ _ _ _ hsetsn⟩
  | cons s rest ih =>
      intro sLast cfg acc prov cfg' he h
      rw [List.cons_append] at h
      obtain ⟨hasEnv, cfg₁, soe, dsCfg, task, dataset, params, bs, hasEnv2, hin, hbranch,
        hds, htask, hdl, hps, hbs, hin2, hrec⟩ :=
        providers_loop_cons_inv _ _ _ _ _ _ _ _ _ h
      obtain rfl : true = hasEnv := by
        rw [he] at hin
        exact Except.ok.inj hin
      cases hbranch with
      | inr hb => exact absurd hb.1 (by simp)
      | inl hb =>
          obtain ⟨_, env, ds, dsp, dsp', ds', _, hgds, hgdsp, hsetsn, hsetp, hsetcfg, _⟩ := hb
          have he₁ : pyIn "env" cfg₁ = .ok true := by
            rw [pyIn_setItem_ne cfg "dataset" ds' cfg₁ "env" hsetcfg (by decide)]
            exact he
          exact ih sLast cfg₁ _ prov cfg' he₁ hrec

theorem load_callbacks_pair (dc : List (String × Value)) (comet : Value) (ext : PyExt)
    (cfgA : Value) (dB kwB : List (String × Value)) (pA cA pB cB nA : String)
    (hin : dictHasKey dc "callbacks" = true)
    (hlist : dictGet? dc "callbacks" = some (.vlist [cfgA, .dict dB]))
    (hA0 : pyIn "kwargs" cfgA = .ok false)
    (hA1 : getItem cfgA "package" = .ok (.str pA))
    (hA2 : getItem cfgA "class" = .ok (.str cA))
    (hBkw : dictGet? dB "kwargs" = some (.dict kwB))
    (hBm : dictGet? kwB "metrics" = some (.vlist [.str nA]))
    (hB1 : dictGet? dB "package" = some (.str pB))
    (hB2 : dictGet? dB "class" = some (.str cB))
    (hname : ext.nameOf (Value.callbackObj pA cA
      (if ext.injectsComet pA cA then some comet else Option.none) Option.none) = nA) :
    ∃ a b,
      a = Value.callbackObj pA cA
        (if ext.injectsComet pA cA then some comet else Option.none) Option.none ∧
      load_callback cfgA comet ext = .ok a ∧
      b = Value.callbackObj pB cB
        (if ext.injectsComet pB cB then some comet else Option.none)
        (some (.dict (dictSet kwB "metrics" (.vlist [a])))) ∧
      load_callbacks_from_config (.dict dc) comet ext = .ok
        (.registry (dictSet [(nA, a)] (ext.nameOf b) b),
         .dict (dictSet dc "callbacks" (.vlist [cfgA,
           .dict (dictSet dB "kwargs" (.dict (dictSet kwB "metrics" (.vlist [a]))))]))) := by
  set a := Value.callbackObj pA cA
    (if ext.injectsComet pA cA then some comet else Option.none) Option.none with ha_def
  set b := Value.callbackObj pB cB
    (if ext.injectsComet pB cB then some comet else Option.none)
    (some (.dict (dictSet kwB "metrics" (.vlist [a])))) with hb_def
  have ha : load_callback cfgA comet ext = .ok a := by
    unfold load_callback
    rw [hA0, exc_ok_bind]
    simp only [Bool.false_eq_true, if_false]
    rw [hA1, exc_ok_bind, hA2, exc_ok_bind]
    rfl
  have hbload : load_callback
      (.dict (dictSet dB "kwargs" (.dict (dictSet kwB "metrics" (.vlist [a])))))
      comet ext = .ok b := by
    unfold load_callback
    have h1 : pyIn "kwargs"
        (Value.dict (dictSet dB "kwargs" (.dict (dictSet kwB "metrics" (.vlist [a]))))) =
        .ok true := by
      simp [pyIn, dictHasKey_dictSet]
    rw [h1, exc_ok_bind]
    simp only [if_true]
    have h2 : getItem
        (Value.dict (dictSet dB "kwargs" (.dict (dictSet kwB "metrics" (.vlist [a])))))
        "package" = .ok (.str pB) := by
      simp [getItem, dictGet?_dictSet, hB1]
    have h3 : getItem
        (Value.dict (dictSet dB "kwargs" (.dict (dictSet kwB "metrics" (.vlist [a])))))
        "class" = .ok (.str cB) := by
      simp [getItem, dictGet?_dictSet, hB2]
    have h4 : getItem
        (Value.dict (dictSet dB "kwargs" (.dict (dictSet kwB "metrics" (.vlist [a])))))
        "kwargs" = .ok (.dict (dictSet kwB "metrics" (.vlist [a]))) := by
      simp [getItem, dictGet?_dictSet]
    rw [h2, exc_ok_bind, h3, exc_ok_bind, h4, exc_ok_bind]
    rfl
  have hloop : load_callbacks_loop ext comet [cfgA, .dict dB] [] [] =
      .ok (dictSet [(nA, a)] (ext.nameOf b) b,
        [cfgA, .dict (dictSet dB "kwargs" (.dict (dictSet kwB "metrics" (.vlist [a]))))]) := by
    rw [load_callbacks_loop]
    rw [hA0, exc_ok_bind]
    simp only [Bool.false_eq_true, if_false]
    rw [exc_pure_bind]
    rw [ha, exc_ok_bind]
    rw [hname]
    rw [load_callbacks_loop]
    have hkB0 : pyIn "kwargs" (Value.dict dB) = .ok true := by
      simp [pyIn, dictHasKey_eq_isSome, hBkw]
    rw [hkB0, exc_ok_bind]
    simp only [if_true]
    have hkB1 : getItem (Value.dict dB) "kwargs" = .ok (.dict kwB) := by
      simp [getItem, hBkw]
    rw [hkB1, exc_ok_bind]
    have hkB2 : pyIn "metrics" (Value.dict kwB) = .ok true := by
      simp [pyIn, dictHasKey_eq_isSome, hBm]
    rw [hkB2, exc_ok_bind]
    simp only [if_true]
    have hkB3 : getItem (Value.dict kwB) "metrics" = .ok (.vlist [.str nA]) := by
      simp [getItem, hBm]
    rw [hkB3, exc_ok_bind]
    dsimp only [dictSet]
    have hres : resolve_metric_refs [(nA, a)] [Value.str nA] = .ok [a] := by
      simp [resolve_metric_refs, dictGet?, exc_ok_bind, exc_pure_ok]
    rw [hres, exc_ok_bind]
    rw [show setItem (Value.dict kwB) "metrics" (Value.vlist [a]) =
      .ok (.dict (dictSet kwB "metrics" (.vlist [a]))) from rfl, exc_ok_bind]
    rw [show setItem (Value.dict dB) "kwargs"
        (Value.dict (dictSet kwB "metrics" (.vlist [a]))) =
      .ok (.dict (dictSet dB "kwargs" (.dict (dictSet kwB "metrics" (.vlist [a])))))
      from rfl, exc_ok_bind]
    rw [hbload, exc_ok_bind]
    rfl
  refine ⟨a, b, rfl, ha, rfl, ?_⟩
  unfold load_callbacks_from_config
  have hpy : pyIn "callbacks" (Value.dict dc) = .ok true := by
    simp [pyIn, hin]
  rw [hpy, exc_ok_bind]
  simp only [if_true]
  have hget : getItem (Value.dict dc) "callbacks" = .ok (.vlist [cfgA, .dict dB]) := by
    simp [getItem, hlist]
  rw [hget, exc_ok_bind]
  dsimp only
  rw [hloop, exc_ok_bind]
  rfl

/-- C4. Given a callback config list `[A, B]` where `B`'s kwargs contain a
metrics list naming `A`, the loader constructs the callbacks in list order
and, before constructing `B`, replaces the name string in `B`'s metrics list
with the already-registered constructed instance: `B` is constructed over
the `A` instance (a callback object, not the name string), and the registry
holds `A` then `B`. -/
theorem C4_callback_reference_resolution (dc : List (String × Value)) (comet : Value)
    (ext : PyExt) (cfgA : Value) (dB kwB : List (String × Value))
    (pA cA pB cB nA : String)
    (hin : dictHasKey dc "callbacks" = true)
    (hlist : dictGet? dc "callbacks" = some (.vlist [cfgA, .dict dB]))
    (hA0 : pyIn "kwargs" cfgA = .ok false)
    (hA1 : getItem cfgA "package" = .ok (.str pA))
    (hA2 : getItem cfgA "class" = .ok (.str cA))
    (hBkw : dictGet? dB "kwargs" = some (.dict kwB))
    (hBm : dictGet? kwB "metrics" = some (.vlist [.str nA]))
    (hB1 : dictGet? dB "package" = some (.str pB))
    (hB2 : dictGet? dB "class" = some (.str cB))
    (hname : ext.nameOf (Value.callbackObj pA cA
      (if ext.injectsComet pA cA then some comet else Option.none) Option.none) = nA) :
    ∃ a b cfg',
      load_callback cfgA comet ext = .ok a ∧
      ext.nameOf a = nA ∧
      b = Value.callbackObj pB cB
        (if ext.injectsComet pB cB then some comet else Option.none)
        (some (.dict (dictSet kwB "metrics" (.vlist [a])))) ∧
      a ≠ Value.str nA ∧
      load_callbacks_from_config (.dict dc) comet ext =
        .ok (.registry (dictSet [(nA, a)] (ext.nameOf b) b), cfg') := by
  obtain ⟨a, b, ha_eq, ha, hb_eq, hmain⟩ :=
    load_callbacks_pair dc comet ext cfgA dB kwB pA cA pB cB nA hin hlist hA0 hA1 hA2
      hBkw hBm hB1 hB2 hname
  refine ⟨a, b, _, ha, ?_, hb_eq, ?_, hmain⟩
  · rw [ha_eq]
    exact hname
  · rw [ha_eq]
    intro hcontra
    exact absurd hcontra (by simp)

/-- C9. Context construction mutates the input experiment config: (a) with
an `env` entry present, the provider loader writes each split name into the
config's dataset params, leaving the last requested split's name there after
return; (b) the callback loader overwrites a callback config's `metrics`
kwargs list with the constructed instances inside the config; (c) the
(mutated) config threaded through loading is exactly the object the
Experiment Context exposes under its `config` key. -/
theorem C9_config_mutation_frame_effects :
    (∀ (cfg : Value) (splits₀ : List String) (sLast : String) (dev : Value)
       (ext : PyExt) (prov : List (String × Value)) (cfg' : Value),
       pyIn "env" cfg = .ok true →
       load_providers_from_config cfg (splits₀ ++ [sLast]) dev ext = .ok (prov, cfg') →
       ∃ ds dsp, getItem cfg' "dataset" = .ok ds ∧ getItem ds "params" = .ok dsp ∧
         getItem dsp "split_name" = .ok (Value.str sLast)) ∧
    (∀ (dc : List (String × Value)) (comet : Value) (ext : PyExt) (cfgA : Value)
       (dB kwB : List (String × Value)) (pA cA pB cB nA : String),
       dictHasKey dc "callbacks" = true →
       dictGet? dc "callbacks" = some (.vlist [cfgA, .dict dB]) →
       pyIn "kwargs" cfgA = .ok false →
       getItem cfgA "package" = .ok (.str pA) →
       getItem cfgA "class" = .ok (.str cA) →
       dictGet? dB "kwargs" = some (.dict kwB) →
       dictGet? kwB "metrics" = some (.vlist [.str nA]) →
       dictGet? dB "package" = some (.str pB) →
       dictGet? dB "class" = some (.str cB) →
       ext.nameOf (Value.callbackObj pA cA
         (if ext.injectsComet pA cA then some comet else Option.none) Option.none) = nA →
       ∃ a r, a = Value.callbackObj pA cA
           (if ext.injectsComet pA cA then some comet else Option.none) Option.none ∧
         load_callbacks_from_config (.dict dc) comet ext = .ok (r,
           .dict (dictSet dc "callbacks" (.vlist [cfgA,
             .dict (dictSet dB "kwargs"
               (.dict (dictSet kwB "metrics" (.vlist [a]))))])))) ∧
    (∀ (cfg : Value) (splits : List String) (ext : PyExt) (H : List (String × Value)),
       ExperimentContext.from_config cfg splits ext = .ok H →
       ∃ comet cbs cfg1 dev prov cfg2,
         load_callbacks_from_config cfg comet ext = .ok (cbs, cfg1) ∧
         load_providers_from_config cfg1 splits dev ext = .ok (prov, cfg2) ∧
         dictGet? H "config" = some cfg2) := by
  refine ⟨?_, ?_, ?_⟩
  · intro cfg splits₀ sLast dev ext prov cfg' he h
    obtain ⟨hasEnv, env?, hin, _, _, hloop⟩ := load_providers_from_config_inv _ _ _ _ _ _ h
    exact providers_loop_split_name ext dev env? splits₀ sLast cfg [] prov cfg' he hloop
  · intro dc comet ext cfgA dB kwB pA cA pB cB nA hin hlist hA0 hA1 hA2 hBkw hBm hB1 hB2 hname
    obtain ⟨a, b, ha_eq, ha, hb_eq, hmain⟩ :=
      load_callbacks_pair dc comet ext cfgA dB kwB pA cA pB cB nA hin hlist hA0 hA1 hA2
        hBkw hBm hB1 hB2 hname
    exact ⟨a, _, ha_eq, hmain⟩
  · intro cfg splits ext H h
    unfold ExperimentContext.from_config at h
    rw [exc_bind_ok_iff] at h
    obtain ⟨p, hp, h⟩ := h
    rw [exc_pure_ok, Except.ok.injEq] at h
    subst h
    obtain ⟨cm, nm, comet, cbs, cfg1, dev, prov, cfg2, _, _, _, _, hcb, hdev, hprov, hpeq⟩ :=
      ExperimentContext.from_config_parts_inv _ _ _ _ hp
    subst hpeq
    exact ⟨comet, cbs, cfg1, dev, prov, cfg2, hcb, hprov, rfl⟩

theorem C4_callback_reference_resolution_witness :
    dictGet? dc4 "callbacks" = some (.vlist [cfgA4, .dict dB4]) ∧
    dictGet? kwB4 "metrics" = some (.vlist [.str "MetricA"]) ∧
    (∃ a b cfg',
      load_callback cfgA4 comet4 extDemo = .ok a ∧
      extDemo.nameOf a = "MetricA" ∧
      b = Value.callbackObj "cbp" "Merger"
        (if extDemo.injectsComet "cbp" "Merger" then some comet4 else Option.none)
        (some (.dict (dictSet kwB4 "metrics" (.vlist [a])))) ∧
      a ≠ Value.str "MetricA" ∧
      load_callbacks_from_config (.dict dc4) comet4 extDemo =
        .ok (.registry (dictSet [("MetricA", a)] (extDemo.nameOf b) b), cfg')) :=
  ⟨rfl, rfl,
   C4_callback_reference_resolution dc4 comet4 extDemo cfgA4 dB4 kwB4 "cbp" "MetricA"
     "cbp" "Merger" "MetricA" rfl rfl rfl rfl rfl rfl rfl rfl rfl rfl⟩

theorem C9_config_mutation_frame_effects_witness :
    pyIn "env" cfgDemoEnv = .ok true ∧
    load_providers_from_config cfgDemoEnv (["train"] ++ ["dev"]) (Value.device "cpu")
      extDemo = .ok (provPairDemoEnv.1, provPairDemoEnv.2) ∧
    (∃ ds dsp, getItem provPairDemoEnv.2 "dataset" = .ok ds ∧
      getItem ds "params" = .ok dsp ∧
      getItem dsp "split_name" = .ok (Value.str "dev")) ∧
    (∃ a r, a = Value.callbackObj "cbp" "MetricA"
        (if extDemo.injectsComet "cbp" "MetricA" then some comet4 else Option.none)
        Option.none ∧
      load_callbacks_from_config (.dict dc4) comet4 extDemo = .ok (r,
        .dict (dictSet dc4 "callbacks" (.vlist [cfgA4,
          .dict (dictSet dB4 "kwargs"
            (.dict (dictSet kwB4 "metrics" (.vlist [a]))))])))) ∧
    (∃ comet cbs cfg1 dev prov cfg2,
      load_callbacks_from_config cfgDemo comet extDemo = .ok (cbs, cfg1) ∧
      load_providers_from_config cfg1 ["train"] dev extDemo = .ok (prov, cfg2) ∧
      dictGet? ecHolderDemo "config" = some cfg2) :=
  ⟨rfl, rfl,
   C9_config_mutation_frame_effects.1 cfgDemoEnv ["train"] "dev" (Value.device "cpu")
     extDemo provPairDemoEnv.1 provPairDemoEnv.2 rfl rfl,
   C9_config_mutation_frame_effects.2.1 dc4 comet4 extDemo cfgA4 dB4 kwB4
     "cbp" "MetricA" "cbp" "Merger" "MetricA" rfl rfl rfl rfl rfl rfl rfl rfl rfl rfl,
   C9_config_mutation_frame_effects.2.2 cfgDemo ["train"] extDemo ecHolderDemo rfl⟩

theorem training_tail_inv (cfg params : Value) (ext : PyExt) (E : List (String × Value))
    (model optimizer epoch_start : Value) (H : List (String × Value))
    (h : (do
        let savers ← load_savers_from_config cfg ext
        let loss_fn ←
          if (← pyIn "loss_fn" params) then load_loss_fn (← getItem params "loss_fn")
          else pure (Value.crossEntropyLoss 0)
        let step_fn ←
          if (← pyIn "step_fn" params) then load_step_fn (← getItem params "step_fn")
          else pure Value.trainingStep
        pure (TrainingContext.init E model optimizer loss_fn step_fn epoch_start savers) :
        Except String (List (String × Value))) = .ok H) :
    ∃ savers loss_fn step_fn,
      H = TrainingContext.init E model optimizer loss_fn step_fn epoch_start savers := by
  rw [exc_bind_ok_iff] at h
  obtain ⟨savers, _, h⟩ := h
  rw [exc_bind_ok_iff] at h
  obtain ⟨bl, _, h⟩ := h
  dsimp only at h
  cases bl with
  | true =>
      simp only [if_true] at h
      rw [exc_bind_ok_iff] at h
      obtain ⟨lv, _, h⟩ := h
      rw [exc_bind_ok_iff] at h
      obtain ⟨lf, _, h⟩ := h
      rw [exc_bind_ok_iff] at h
      obtain ⟨bs, _, h⟩ := h
      cases bs with
      | true =>
          simp only [if_true] at h
          rw [exc_bind_ok_iff] at h
          obtain ⟨sv, _, h⟩ := h
          rw [exc_bind_ok_iff] at h
          obtain ⟨sf, _, h⟩ := h
          rw [exc_pure_ok] at h
          exact ⟨savers, lf, sf, (Except.ok.inj h).symm⟩
      | false =>
          simp only [Bool.false_eq_true, if_false] at h
          rw [exc_pure_bind] at h
          rw [exc_pure_ok] at h
          exact ⟨savers, lf, Value.trainingStep, (Except.ok.inj h).symm⟩
  | false =>
      simp only [Bool.false_eq_true, if_false] at h
      rw [exc_pure_bind] at h
      rw [exc_bind_ok_iff] at h
      obtain ⟨bs, _, h⟩ := h
      cases bs with
      | true =>
          simp only [if_true] at h
          rw [exc_bind_ok_iff] at h
          obtain ⟨sv, _, h⟩ := h
          rw [exc_bind_ok_iff] at h
          obtain ⟨sf, _, h⟩ := h
          rw [exc_pure_ok] at h
          exact ⟨savers, Value.crossEntropyLoss 0, sf, (Except.ok.inj h).symm⟩
      | false =>
          simp only [Bool.false_eq_true, if_false] at h
          rw [exc_pure_bind] at h
          rw [exc_pure_ok] at h
          exact ⟨savers, Value.crossEntropyLoss 0, Value.trainingStep,
            (Except.ok.inj h).symm⟩

theorem providers_loop_mutates_only (ext : PyExt) (dev : Value) (env? : Option Value) :
    ∀ (splits : List String) (cfg : Value) (acc prov : List (String × Value)) (cfg' : Value),
      providers_loop ext dev env? splits cfg acc = .ok (prov, cfg') →
      MutatesOnly "dataset" cfg cfg' := by
  intro splits
  induction splits with
  | nil =>
      intro cfg acc prov cfg' h
      rw [providers_loop_nil_iff] at h
      exact h.2 ▸ MutatesOnly.refl _ _
  | cons s rest ih =>
      intro cfg acc prov cfg' h
      obtain ⟨hasEnv, cfg₁, soe, dsCfg, task, dataset, params, bs, hasEnv2, hin, hbranch,
        hds, htask, hdl, hps, hbs, hin2, hrec⟩ :=
        providers_loop_cons_inv _ _ _ _ _ _ _ _ _ h
      cases hbranch with
      | inl hb =>
          obtain ⟨_, env, ds, dsp, dsp', ds', _, _, _, _, _, hsetcfg, _⟩ := hb
          exact (MutatesOnly.setItem_step hsetcfg).comp (ih cfg₁ _ prov cfg' hrec)
      | inr hb =>
          exact hb.2.1 ▸ ih cfg₁ _ prov cfg' hrec

theorem load_providers_mutates_only (cfg : Value) (splits : List String) (dev : Value)
    (ext : PyExt) (prov : List (String × Value)) (cfg' : Value)
    (h : load_providers_from_config cfg splits dev ext = .ok (prov, cfg')) :
    MutatesOnly "dataset" cfg cfg' := by
  obtain ⟨hasEnv, env?, _, _, _, hloop⟩ := load_providers_from_config_inv _ _ _ _ _ _ h
  exact providers_loop_mutates_only ext dev env? splits cfg [] prov cfg' hloop

theorem ExperimentContext.from_config_parts_frame (cfg : Value) (splits : List String)
    (ext : PyExt) (p : ExpParts)
    (hp : ExperimentContext.from_config_parts cfg splits ext = .ok p) (k : String)
    (h1 : k ≠ "callbacks") (h2 : k ≠ "dataset") :
    getItem p.config k = getItem cfg k := by
  obtain ⟨cm, nm, comet, cbs, cfg1, dev, prov, cfg2, _, _, _, _, hcb, hdev, hprov, hpeq⟩ :=
    ExperimentContext.from_config_parts_inv _ _ _ _ hp
  subst hpeq
  have m1 : MutatesOnly "callbacks" cfg cfg1 :=
    load_callbacks_mutates_only _ _ _ _ _ hcb
  have m2 : MutatesOnly "dataset" cfg1 cfg2 :=
    load_providers_mutates_only _ _ _ _ _ _ hprov
  exact (m2.getItem_frame h2).trans (m1.getItem_frame h1)

theorem epoch_start_lookup (c m d pr cb model optimizer loss_fn step_fn ep savers : Value) :
    dictGet? (TrainingContext.init (ExperimentContext.init c m d pr cb)
      model optimizer loss_fn step_fn ep savers) "epoch_start" = some ep := rfl

theorem pyIn_of_getItem (v : Value) (k : String) (x : Value)
    (h : getItem v k = .ok x) : pyIn k v = .ok true := by
  cases v <;> simp [getItem] at h
  case dict d =>
    cases hkd : dictGet? d k with
    | none => simp [hkd] at h
    | some y => simp [pyIn, dictHasKey_eq_isSome, hkd]

/-- C5. With the resume flag set and a checkpoint whose `cp-epoch` entry is
`n`, a successfully built Training Context's starting epoch is `n + 1`;
without the resume flag (absent or falsy) the starting epoch is `1`. -/
theorem C5_resume_epoch_start (cfg : Value) (splits : List String) (ext : PyExt)
    (H : List (String × Value)) (params path rv : Value) (n : Int)
    (hparams : getItem cfg "params" = .ok params) :
    ((pyIn "resume" params = .ok true) → (getItem params "resume" = .ok rv) →
     truthy rv = true →
     getItem params "resume_checkpoint_path" = .ok path →
     getItem (ext.loadCheckpoint path) "cp-epoch" = .ok (.int n) →
     TrainingContext.from_config cfg splits ext = .ok H →
     dictGet? H "epoch_start" = some (.int (n + 1))) ∧
    ((pyIn "resume" params = .ok false ∨
      (getItem params "resume" = .ok rv ∧ truthy rv = false)) →
     TrainingContext.from_config cfg splits ext = .ok H →
     dictGet? H "epoch_start" = some (.int 1)) := by
  constructor
  · intro hres hrv htr hpath hep h
    unfold TrainingContext.from_config at h
    rw [exc_bind_ok_iff] at h
    obtain ⟨p, hp, h⟩ := h
    have hframe : getItem p.config "params" = .ok params := by
      rw [ExperimentContext.from_config_parts_frame cfg splits ext p hp "params"
        (by decide) (by decide)]
      exact hparams
    rw [exc_bind_ok_iff] at h
    obtain ⟨mc, hmc, h⟩ := h
    rw [exc_bind_ok_iff] at h
    obtain ⟨tk, htk, h⟩ := h
    rw [exc_bind_ok_iff] at h
    obtain ⟨model, hmodel, h⟩ := h
    rw [exc_bind_ok_iff] at h
    obtain ⟨params', hparams', h⟩ := h
    obtain rfl : params = params' := by
      rw [hframe] at hparams'
      exact Except.ok.inj hparams'
    rw [exc_bind_ok_iff] at h
    obtain ⟨bres, hbres, h⟩ := h
    obtain rfl : true = bres := by
      rw [hres] at hbres
      exact Except.ok.inj hbres
    dsimp only at h
    simp only [if_true] at h
    rw [hrv] at h
    rw [show ((fun x => truthy x) <$> (Except.ok rv : Except String Value)) =
      Except.ok (truthy rv) from rfl] at h
    rw [exc_ok_bind] at h
    rw [htr] at h
    simp only [if_true] at h
    rw [hpath, exc_ok_bind] at h
    rw [exc_bind_ok_iff] at h
    obtain ⟨u, hlog, h⟩ := h
    rw [exc_bind_ok_iff] at h
    obtain ⟨sd, hsd, h⟩ := h
    rw [exc_bind_ok_iff] at h
    obtain ⟨m1, hm1, h⟩ := h
    rw [hep, exc_ok_bind] at h
    rw [show pyAdd (Value.int n) (Value.int 1) = Except.ok (Value.int (n + 1)) from rfl,
      exc_ok_bind] at h
    rw [exc_pure_bind] at h
    dsimp only at h
    rw [exc_bind_ok_iff] at h
    obtain ⟨m2, hm2, h⟩ := h
    rw [exc_bind_ok_iff] at h
    obtain ⟨ov, hov, h⟩ := h
    rw [exc_bind_ok_iff] at h
    obtain ⟨opt, hopt, h⟩ := h
    obtain ⟨savers, lf, sf, hH⟩ :=
      training_tail_inv p.config params ext _ m2 opt (Value.int (n + 1)) H h
    rw [hH]
    exact epoch_start_lookup _ _ _ _ _ _ _ _ _ _ _
  · intro hno h
    unfold TrainingContext.from_config at h
    rw [exc_bind_ok_iff] at h
    obtain ⟨p, hp, h⟩ := h
    have hframe : getItem p.config "params" = .ok params := by
      rw [ExperimentContext.from_config_parts_frame cfg splits ext p hp "params"
        (by decide) (by decide)]
      exact hparams
    rw [exc_bind_ok_iff] at h
    obtain ⟨mc, hmc, h⟩ := h
    rw [exc_bind_ok_iff] at h
    obtain ⟨tk, htk, h⟩ := h
    rw [exc_bind_ok_iff] at h
    obtain ⟨model, hmodel, h⟩ := h
    rw [exc_bind_ok_iff] at h
    obtain ⟨params', hparams', h⟩ := h
    obtain rfl : params = params' := by
      rw [hframe] at hparams'
      exact Except.ok.inj hparams'
    rw [exc_bind_ok_iff] at h
    obtain ⟨bres, hbres, h⟩ := h
    cases hno with
    | inl habs =>
        obtain rfl : false = bres := by
          rw [habs] at hbres
          exact Except.ok.inj hbres
        dsimp only at h
        simp only [Bool.false_eq_true, if_false] at h
        rw [exc_pure_bind] at h
        simp only [Bool.false_eq_true, if_false] at h
        rw [exc_pure_bind] at h
        dsimp only at h
        rw [exc_bind_ok_iff] at h
        obtain ⟨m2, hm2, h⟩ := h
        rw [exc_pure_bind] at h
        obtain ⟨savers, lf, sf, hH⟩ :=
          training_tail_inv p.config params ext _ m2 _ (Value.int 1) H h
        rw [hH]
        exact epoch_start_lookup _ _ _ _ _ _ _ _ _ _ _
    | inr hpair =>
        have hres2 : pyIn "resume" params = .ok true :=
          pyIn_of_getItem _ _ _ hpair.1
        obtain rfl : true = bres := by
          rw [hres2] at hbres
          exact Except.ok.inj hbres
        dsimp only at h
        simp only [if_true] at h
        rw [hpair.1] at h
        rw [show ((fun x => truthy x) <$> (Except.ok rv : Except String Value)) =
          Except.ok (truthy rv) from rfl] at h
        rw [exc_ok_bind] at h
        rw [hpair.2] at h
        simp only [Bool.false_eq_true, if_false] at h
        rw [exc_pure_bind] at h
        dsimp only at h
        rw [exc_bind_ok_iff] at h
        obtain ⟨m2, hm2, h⟩ := h
        rw [exc_pure_bind] at h
        obtain ⟨savers, lf, sf, hH⟩ :=
          training_tail_inv p.config params ext _ m2 _ (Value.int 1) H h
        rw [hH]
        exact epoch_start_lookup _ _ _ _ _ _ _ _ _ _ _

theorem C5_resume_epoch_start_witness :
    getItem cfgDemoResume "params" = .ok (.dict [("batch_size", .int 4),
      ("resume", .bool true), ("resume_checkpoint_path", .str "/ckpt")]) ∧
    getItem (extDemo.loadCheckpoint (.str "/ckpt")) "cp-epoch" = .ok (.int 5) ∧
    dictGet? trainHolderResume "epoch_start" = some (.int 6) ∧
    dictGet? trainHolderNoResume "epoch_start" = some (.int 1) :=
  ⟨rfl, rfl,
   (C5_resume_epoch_start cfgDemoResume ["train"] extDemo trainHolderResume
     (.dict [("batch_size", .int 4), ("resume", .bool true),
       ("resume_checkpoint_path", .str "/ckpt")]) (.str "/ckpt") (.bool true) 5
     rfl).1 rfl rfl rfl rfl rfl rfl,
   (C5_resume_epoch_start cfgDemo ["train"] extDemo trainHolderNoResume
     (.dict [("batch_size", .int 4)]) (.str "/ckpt") (.bool true) 5 rfl).2
     (Or.inl rfl) rfl⟩

theorem PredictionContext.from_config_inv (cfg : Value) (splits : List String)
    (path : Value) (ext : PyExt) (H : List (String × Value))
    (h : PredictionContext.from_config cfg splits path ext = .ok H) :
    isNone path = false ∧
    ∃ p cpm cpt m0 sd m1 m2,
      ExperimentContext.from_config_parts cfg splits ext = .ok p ∧
      getItem (ext.loadCheckpoint path) "cp-model" = .ok cpm ∧
      getItem (ext.loadCheckpoint path) "cp-task" = .ok cpt ∧
      load_model_from_config cpm cpt = .ok m0 ∧
      getItem (ext.loadCheckpoint path) "state_dict" = .ok sd ∧
      model_load_state_dict m0 sd false = .ok m1 ∧
      model_to m1 p.device = .ok m2 ∧
      H = PredictionContext.init
        (ExperimentContext.init p.config p.comet p.device p.providers p.callbacks) m2 := by
  unfold PredictionContext.from_config at h
  cases hn : isNone path with
  | true =>
      rw [hn] at h
      simp at h
  | false =>
      rw [hn] at h
      simp only [Bool.false_eq_true, if_false] at h
      refine ⟨rfl, ?_⟩
      rw [exc_bind_ok_iff] at h
      obtain ⟨p, hp, h⟩ := h
      rw [exc_bind_ok_iff] at h
      obtain ⟨u, hlog, h⟩ := h
      rw [exc_bind_ok_iff] at h
      obtain ⟨cpm, hcpm, h⟩ := h
      rw [exc_bind_ok_iff] at h
      obtain ⟨cpt, hcpt, h⟩ := h
      rw [exc_bind_ok_iff] at h
      obtain ⟨m0, hm0, h⟩ := h
      rw [exc_bind_ok_iff] at h
      obtain ⟨sd, hsd, h⟩ := h
      rw [exc_bind_ok_iff] at h
      obtain ⟨m1, hm1, h⟩ := h
      rw [exc_bind_ok_iff] at h
      obtain ⟨m2, hm2, h⟩ := h
      rw [exc_pure_ok] at h
      exact ⟨p, cpm, cpt, m0, sd, m1, m2, hp, hcpm, hcpt, hm0, hsd, hm1, hm2,
        (Except.ok.inj h).symm⟩

theorem prediction_model_lookup (c m d pr cb model : Value) :
    dictGet? (PredictionContext.init (ExperimentContext.init c m d pr cb) model)
      "model" = some model := rfl

theorem prediction_device_lookup (c m d pr cb model : Value) :
    dictGet? (PredictionContext.init (ExperimentContext.init c m d pr cb) model)
      "device" = some d := rfl

theorem load_callbacks_both (a b comet : Value) (ext : PyExt) (r₁ r₂ a' b' : Value)
    (heq : EqExcept "model" a b)
    (ha : load_callbacks_from_config a comet ext = .ok (r₁, a'))
    (hb : load_callbacks_from_config b comet ext = .ok (r₂, b')) :
    EqExcept "model" a' b' := by
  unfold load_callbacks_from_config at ha hb
  rw [exc_bind_ok_iff] at ha hb
  obtain ⟨ba, hina, ha⟩ := ha
  obtain ⟨bb, hinb, hb⟩ := hb
  obtain rfl : ba = bb := by
    rw [heq.pyIn_eq (by decide)] at hina
    rw [hina] at hinb
    exact Except.ok.inj hinb
  cases ba with
  | false =>
      simp only [Bool.false_eq_true, if_false, exc_pure_ok, Except.ok.injEq,
        Prod.mk.injEq] at ha hb
      obtain ⟨-, rfl⟩ := ha
      obtain ⟨-, rfl⟩ := hb
      exact heq
  | true =>
      simp only [if_true] at ha hb
      rw [exc_bind_ok_iff] at ha hb
      obtain ⟨la, hgeta, ha⟩ := ha
      obtain ⟨lb, hgetb, hb⟩ := hb
      obtain rfl : la = lb := by
        rw [heq.getItem_eq (by decide)] at hgeta
        rw [hgeta] at hgetb
        exact Except.ok.inj hgetb
      cases la
      case vlist cfgs =>
        rw [exc_bind_ok_iff] at ha hb
        obtain ⟨⟨cbs₁, proc₁⟩, hloop₁, ha⟩ := ha
        obtain ⟨⟨cbs₂, proc₂⟩, hloop₂, hb⟩ := hb
        obtain ⟨rfl, rfl⟩ : cbs₁ = cbs₂ ∧ proc₁ = proc₂ := by
          rw [hloop₁] at hloop₂
          have hinj := Except.ok.inj hloop₂
          exact ⟨congrArg Prod.fst hinj, congrArg Prod.snd hinj⟩
        dsimp only at ha hb
        rw [exc_bind_ok_iff] at ha hb
        obtain ⟨a'', hseta, ha⟩ := ha
        obtain ⟨b'', hsetb, hb⟩ := hb
        rw [exc_pure_ok, Except.ok.injEq, Prod.mk.injEq] at ha hb
        obtain ⟨-, rfl⟩ := ha
        obtain ⟨-, rfl⟩ := hb
        exact heq.setItem_both hseta hsetb
      all_goals simp at ha

theorem load_device_both (a b : Value) (ext : PyExt) (d₁ d₂ : Value)
    (heq : EqExcept "model" a b)
    (ha : load_device_from_config a ext = .ok d₁)
    (hb : load_device_from_config b ext = .ok d₂) : d₁ = d₂ := by
  unfold load_device_from_config at ha hb
  rw [exc_bind_ok_iff] at ha hb
  obtain ⟨P₁, hP₁, ha⟩ := ha
  obtain ⟨P₂, hP₂, hb⟩ := hb
  obtain rfl : P₁ = P₂ := by
    rw [heq.getItem_eq (by decide)] at hP₁
    rw [hP₁] at hP₂
    exact Except.ok.inj hP₂
  rw [ha] at hb
  exact Except.ok.inj hb

theorem from_config_parts_device_eq (cfg₁ cfg₂ : Value) (splits : List String)
    (ext : PyExt) (p₁ p₂ : ExpParts) (heq : EqExcept "model" cfg₁ cfg₂)
    (h₁ : ExperimentContext.from_config_parts cfg₁ splits ext = .ok p₁)
    (h₂ : ExperimentContext.from_config_parts cfg₂ splits ext = .ok p₂) :
    p₁.device = p₂.device := by
  obtain ⟨cm₁, nm₁, comet₁, cbs₁, c11, dev₁, prov₁, c12, hcm₁, hnm₁, hcomet₁, _,
    hcb₁, hdev₁, _, hpeq₁⟩ := ExperimentContext.from_config_parts_inv _ _ _ _ h₁
  obtain ⟨cm₂, nm₂, comet₂, cbs₂, c21, dev₂, prov₂, c22, hcm₂, hnm₂, hcomet₂, _,
    hcb₂, hdev₂, _, hpeq₂⟩ := ExperimentContext.from_config_parts_inv _ _ _ _ h₂
  obtain rfl : cm₁ = cm₂ := by
    rw [heq.getItem_eq (by decide)] at hcm₁
    rw [hcm₁] at hcm₂
    exact Except.ok.inj hcm₂
  obtain rfl : nm₁ = nm₂ := by
    rw [heq.getItem_eq (by decide)] at hnm₁
    rw [hnm₁] at hnm₂
    exact Except.ok.inj hnm₂
  obtain rfl : comet₁ = comet₂ := by
    rw [hcomet₁] at hcomet₂
    exact Except.ok.inj hcomet₂
  have heq1 : EqExcept "model" c11 c21 :=
    load_callbacks_both _ _ _ _ _ _ _ _ heq hcb₁ hcb₂
  have hdeq : dev₁ = dev₂ := load_device_both _ _ _ _ _ heq1 hdev₁ hdev₂
  subst hpeq₁
  subst hpeq₂
  exact hdeq

/-- C2. For every checkpoint record and experiment config, a successfully
built Prediction Context's model is constructed from the checkpoint's
recorded `cp-model` and `cp-task` entries and its weights are loaded with
`strict = False` (first conjunct: the holder's model is exactly the value
built from the checkpoint record and the context's device, through the same
loaders); it is never taken from the live experiment config's model section
(second conjunct: two configs differing only at their `model` key yield the
same model). -/
theorem C2_prediction_model_from_checkpoint (cfg cfg₂ path : Value)
    (splits : List String) (ext : PyExt) (H H₂ : List (String × Value))
    (h : PredictionContext.from_config cfg splits path ext = .ok H) :
    (∃ dev cpm cpt m0 sd m1 m2,
      dictGet? H "device" = some dev ∧
      getItem (ext.loadCheckpoint path) "cp-model" = .ok cpm ∧
      getItem (ext.loadCheckpoint path) "cp-task" = .ok cpt ∧
      load_model_from_config cpm cpt = .ok m0 ∧
      getItem (ext.loadCheckpoint path) "state_dict" = .ok sd ∧
      model_load_state_dict m0 sd false = .ok m1 ∧
      model_to m1 dev = .ok m2 ∧
      dictGet? H "model" = some m2) ∧
    (EqExcept "model" cfg cfg₂ →
      PredictionContext.from_config cfg₂ splits path ext = .ok H₂ →
      dictGet? H "model" = dictGet? H₂ "model") := by
  obtain ⟨hn, p, cpm, cpt, m0, sd, m1, m2, hp, hcpm, hcpt, hm0, hsd, hm1, hm2, hH⟩ :=
    PredictionContext.from_config_inv _ _ _ _ _ h
  constructor
  · subst hH
    exact ⟨p.device, cpm, cpt, m0, sd, m1, m2,
      prediction_device_lookup _ _ _ _ _ _, hcpm, hcpt, hm0, hsd, hm1, hm2,
      prediction_model_lookup _ _ _ _ _ _⟩
  · intro heq h₂
    obtain ⟨hn₂, p₂, cpm₂, cpt₂, m0₂, sd₂, m1₂, m2₂, hp₂, hcpm₂, hcpt₂, hm0₂, hsd₂,
      hm1₂, hm2₂, hH₂⟩ := PredictionContext.from_config_inv _ _ _ _ _ h₂
    obtain rfl : cpm = cpm₂ := by
      rw [hcpm] at hcpm₂
      exact Except.ok.inj hcpm₂
    obtain rfl : cpt = cpt₂ := by
      rw [hcpt] at hcpt₂
      exact Except.ok.inj hcpt₂
    obtain rfl : m0 = m0₂ := by
      rw [hm0] at hm0₂
      exact Except.ok.inj hm0₂
    obtain rfl : sd = sd₂ := by
      rw [hsd] at hsd₂
      exact Except.ok.inj hsd₂
    obtain rfl : m1 = m1₂ := by
      rw [hm1] at hm1₂
      exact Except.ok.inj hm1₂
    have hdev : p.device = p₂.device :=
      from_config_parts_device_eq _ _ _ _ _ _ heq hp hp₂
    obtain rfl : m2 = m2₂ := by
      rw [hdev] at hm2
      rw [hm2] at hm2₂
      exact Except.ok.inj hm2₂
    subst hH
    subst hH₂
    rw [prediction_model_lookup, prediction_model_lookup]

theorem C2_prediction_model_from_checkpoint_witness :
    PredictionContext.from_config cfgDemo ["test"] (.str "/m.pt") extDemo =
      .ok predHolderDemo ∧
    setItem cfgDemo "model" (.dict [("package", .str "otherpkg"),
      ("class", .str "OtherModel")]) = .ok cfgDemoAltModel ∧
    (∃ dev cpm cpt m0 sd m1 m2,
      dictGet? predHolderDemo "device" = some dev ∧
      getItem (extDemo.loadCheckpoint (.str "/m.pt")) "cp-model" = .ok cpm ∧
      getItem (extDemo.loadCheckpoint (.str "/m.pt")) "cp-task" = .ok cpt ∧
      load_model_from_config cpm cpt = .ok m0 ∧
      getItem (extDemo.loadCheckpoint (.str "/m.pt")) "state_dict" = .ok sd ∧
      model_load_state_dict m0 sd false = .ok m1 ∧
      model_to m1 dev = .ok m2 ∧
      dictGet? predHolderDemo "model" = some m2) ∧
    dictGet? predHolderDemo "model" = dictGet? predHolderAltDemo "model" ∧
    dictGet? predHolderDemo "model" = some (Value.modelObj "cpk" "CkptModel"
      Option.none (Value.dict [("kind", Value.str "ckpt-task")])
      [(Value.dict [], false)] (some (Value.device "cpu"))) :=
  ⟨rfl, rfl,
   (C2_prediction_model_from_checkpoint cfgDemo cfgDemoAltModel (.str "/m.pt")
     ["test"] extDemo predHolderDemo predHolderAltDemo rfl).1,
   (C2_prediction_model_from_checkpoint cfgDemo cfgDemoAltModel (.str "/m.pt")
     ["test"] extDemo predHolderDemo predHolderAltDemo rfl).2
     (EqExcept.of_setItem rfl) rfl,
   rfl⟩
